import Mathlib

/-!
Verification of the path-inference and safety-gated rewrite engine of the
library-manager application (`src/app.py`).  Python strings are modelled as
Lean `String`s (processed through their `List Char` data), filesystem paths
as lists of path components, and SQLite tables as lists of row structures.
Python regular expressions are hand-translated into explicit matching
functions that follow the backtracking preference order of the `re` module
(greedy / lazy quantifier semantics) for the exact patterns appearing in the
source.  Character classes such as Python `\w` and `\s` are modelled over
their ASCII meaning, which covers all inputs appearing in the claims.
-/

namespace LibraryManager

/-! ## Basic character helpers (ASCII models of Python `str` predicates) -/

/-- ASCII whitespace, the characters matched by Python `\s` / `str.strip()`. -/
def isWsC (c : Char) : Bool :=
  c = ' ' || c = '\t' || c = '\n' || c = '\r' || c = Char.ofNat 11 || c = Char.ofNat 12

/-- ASCII decimal digit, Python `\d`. -/
def isDigitC (c : Char) : Bool :=
  '0' ≤ c && c ≤ '9'

/-- ASCII uppercase letter, the Python regex class `[A-Z]`. -/
def isUpperC (c : Char) : Bool :=
  'A' ≤ c && c ≤ 'Z'

/-- ASCII lowercase letter, the Python regex class `[a-z]`. -/
def isLowerC (c : Char) : Bool :=
  'a' ≤ c && c ≤ 'z'

/-- Python `\w` word character (ASCII model): letter, digit or underscore. -/
def isWordC (c : Char) : Bool :=
  isUpperC c || isLowerC c || isDigitC c || c = '_'

/-- ASCII lowercasing, modelling Python `str.lower()` on the inputs used here. -/
def lowerC (c : Char) : Char :=
  if isUpperC c then Char.ofNat (c.toNat + 32) else c

/-- Lowercase a whole character list. -/
def lowerL (cs : List Char) : List Char :=
  cs.map lowerC

/-- Remove the trailing run of characters satisfying `p` (structural version
of Python's right-strip, convenient for induction). -/
def stripEndBy (p : Char → Bool) : List Char → List Char
  | [] => []
  | c :: cs =>
    let r := stripEndBy p cs
    if r.isEmpty && p c then [] else c :: r

/-- Python `str.strip(chars)`: drop the leading and trailing runs of
characters satisfying `p`. -/
def stripBy (p : Char → Bool) (cs : List Char) : List Char :=
  stripEndBy p (cs.dropWhile p)

/-- Python `str.strip()`: drop leading and trailing whitespace. -/
def pyStrip (cs : List Char) : List Char :=
  stripBy isWsC cs

/-- The set stripped by Python `str.strip('. ')`. -/
def isDotSpace (c : Char) : Bool :=
  c = '.' || c = ' '

/-- Python `str.strip('. ')`: drop leading and trailing dots and spaces. -/
def stripDotSpace (cs : List Char) : List Char :=
  stripBy isDotSpace cs

/-- Does the character list contain two consecutive dots (Python `'..' in name`)? -/
def hasDotDot : List Char → Bool
  | [] => false
  | [_] => false
  | a :: b :: rest => (a = '.' && b = '.') || hasDotDot (b :: rest)

/-! ## `sanitize_path_component` (app.py lines 519-551) -/

/-- The characters removed by `sanitize_path_component`: the Windows-illegal
set `< > : " / \ | ? *` plus the control characters `\x00`-`\x0f`
(and only those; `\x10`-`\x1f` are not in the source's `dangerous_chars`). -/
def dangerousChars : List Char :=
  ['<', '>', ':', '"', '/', '\\', '|', '?', '*'] ++ (List.range 16).map Char.ofNat

/-- `sanitize_path_component(name)`: strip whitespace; reject empty input;
reject anything containing `..` or starting with `/` or `\`; delete the
dangerous characters; strip leading/trailing `. `; reject results shorter
than 2 characters. -/
def sanitize_path_component (s : String) : Option String :=
  let name := pyStrip s.data
  if name = [] then none
  else if hasDotDot name || name.head? = some '/' || name.head? = some '\\' then none
  else
    let cleaned := name.filter (fun c => !(dangerousChars.contains c))
    let final := stripDotSpace cleaned
    if final.length < 2 then none else some (String.mk final)

/-! ## Path model

A filesystem path is a list of components below an implicit absolute root;
the configured library root is itself such a list.  `resolveParts` models
`Path.resolve()` on a symlink-free tree: `..` removes the previous
component (staying put at the root) and `.` is dropped. -/

def resolveStep (acc : List String) (c : String) : List String :=
  if c = ".." then acc.dropLast else if c = "." then acc else acc ++ [c]

def resolveParts (ps : List String) : List String :=
  ps.foldl resolveStep []

/-! ## Text cleanup helpers for the custom-template branch of
`build_new_path` (app.py lines 613-653).  Each models one `re.sub` /
`str.replace` call; the recursion carries fuel bounded by the input length,
which suffices because every step consumes at least one input character. -/

/-- Python `str.replace(pat, repl)`: left-to-right, non-overlapping. -/
def replaceAllAux (pat repl : List Char) : Nat → List Char → List Char
  | 0, cs => cs
  | _ + 1, [] => []
  | fuel + 1, c :: cs =>
    if pat.isPrefixOf (c :: cs) && !pat.isEmpty then
      repl ++ replaceAllAux pat repl fuel ((c :: cs).drop pat.length)
    else
      c :: replaceAllAux pat repl fuel cs

def replaceAllL (pat repl cs : List Char) : List Char :=
  replaceAllAux pat repl cs.length cs

/-- `re.sub(r'OP\s*CL', '', s)` for a bracket pair, e.g. removing empty
parentheses left by missing optional template data. -/
def removeEmptyBracketsAux (op cl : Char) : Nat → List Char → List Char
  | 0, cs => cs
  | _ + 1, [] => []
  | fuel + 1, c :: cs =>
    if c = op then
      let ws := cs.takeWhile isWsC
      match cs.drop ws.length with
      | c2 :: rest2 =>
        if c2 = cl then removeEmptyBracketsAux op cl fuel rest2
        else c :: removeEmptyBracketsAux op cl fuel cs
      | [] => c :: removeEmptyBracketsAux op cl fuel cs
    else
      c :: removeEmptyBracketsAux op cl fuel cs

def removeEmptyBracketsL (op cl : Char) (cs : List Char) : List Char :=
  removeEmptyBracketsAux op cl cs.length cs

/-- One attempted match of `\s+-\s+(?=-|/|$)` at the current position,
returning the remaining input (the lookahead is not consumed). -/
def dashMatchAt (cs : List Char) : Option (List Char) :=
  let w1 := cs.takeWhile isWsC
  if w1.isEmpty then none
  else
    match cs.drop w1.length with
    | '-' :: rest =>
      let w2 := rest.takeWhile isWsC
      if w2.isEmpty then none
      else
        match rest.drop w2.length with
        | [] => some []
        | '-' :: tl => some ('-' :: tl)
        | '/' :: tl => some ('/' :: tl)
        | _ => none
    | _ => none

/-- `re.sub(r'\s+-\s+(?=-|/|$)', '', s)`: remove dangling " - " runs. -/
def applyDashCleanAux : Nat → List Char → List Char
  | 0, cs => cs
  | _ + 1, [] => []
  | fuel + 1, c :: cs =>
    match dashMatchAt (c :: cs) with
    | some rest => applyDashCleanAux fuel rest
    | none => c :: applyDashCleanAux fuel cs

def applyDashCleanL (cs : List Char) : List Char :=
  applyDashCleanAux cs.length cs

/-- `re.sub(r'/+', '/', s)`: collapse runs of slashes. -/
def slashCollapseAux : Nat → List Char → List Char
  | 0, cs => cs
  | _ + 1, [] => []
  | fuel + 1, c :: cs =>
    if c = '/' then '/' :: slashCollapseAux fuel (cs.dropWhile (fun x => x = '/'))
    else c :: slashCollapseAux fuel cs

def slashCollapseL (cs : List Char) : List Char :=
  slashCollapseAux cs.length cs

/-- `re.sub(r'\s{2,}', ' ', s)`: collapse runs of two or more whitespace
characters into a single space. -/
def spaceCollapseAux : Nat → List Char → List Char
  | 0, cs => cs
  | _ + 1, [] => []
  | fuel + 1, c :: cs =>
    if isWsC c && (match cs with | c2 :: _ => isWsC c2 | [] => false) then
      ' ' :: spaceCollapseAux fuel (cs.dropWhile isWsC)
    else c :: spaceCollapseAux fuel cs

def spaceCollapseL (cs : List Char) : List Char :=
  spaceCollapseAux cs.length cs

/-- Python `str.strip(' /')`. -/
def isSpaceSlash (c : Char) : Bool :=
  c = ' ' || c = '/'

def stripSpaceSlash (cs : List Char) : List Char :=
  stripBy isSpaceSlash cs

/-! ## `build_new_path` (app.py lines 554-684) -/

/-- The configuration keys consulted by the path builder and the
queue-processing slice. -/
structure Config where
  naming_format : String
  series_grouping : Bool
  custom_naming_template : String
  auto_fix : Bool
  protect_author_changes : Bool

/-- Python truthiness for an optional string argument (`None` and `''` are
falsy). -/
def truthyS : Option String → Bool
  | none => false
  | some s => !s.isEmpty

/-- Python truthiness for the optional year (`None` and `0` are falsy). -/
def truthyYear : Option Nat → Bool
  | none => false
  | some y => y ≠ 0

/-- The title-folder string assembled at app.py lines 581-611: optional
series-number prefix, variant/edition in square brackets, year in
parentheses when no edition/variant, narrator in curly braces (ABS layout)
or parentheses. -/
def buildTitleFolder (cfg : Config) (safeTitle : String) (safeSeries : Option String)
    (seriesNum narrator : Option String) (year : Option Nat)
    (edition variant : Option String) : String :=
  let tf := if cfg.series_grouping && safeSeries.isSome && truthyS seriesNum then
      (seriesNum.getD "") ++ " - " ++ safeTitle
    else safeTitle
  let tf := if truthyS variant then
      match sanitize_path_component (variant.getD "") with
      | some sv => tf ++ " [" ++ sv ++ "]"
      | none => tf
    else if truthyS edition then
      match sanitize_path_component (edition.getD "") with
      | some se => tf ++ " [" ++ se ++ "]"
      | none => tf
    else tf
  let tf := if truthyYear year && !truthyS edition && !truthyS variant then
      tf ++ " (" ++ toString (year.getD 0) ++ ")"
    else tf
  if truthyS narrator then
    match sanitize_path_component (narrator.getD "") with
    | some sn =>
      if cfg.series_grouping then tf ++ " \x7b" ++ sn ++ "\x7d"
      else tf ++ " (" ++ sn ++ ")"
    | none => tf
  else tf

/-- Outcome of expanding the custom naming template: `crash` models the
uncaught `TypeError` raised by `str.replace(tag, None)` when a present
narrator/edition/variant fails sanitization (app.py lines 618-633). -/
inductive PartsOut where
  | crash
  | emptyParts
  | parts (ps : List String)
deriving DecidableEq

/-- The custom-template branch (app.py lines 613-653): token substitution
followed by cleanup of empty brackets, dangling dashes, duplicate slashes
and duplicate spaces, then splitting on `/`. -/
def customParts (cfg : Config) (safeAuthor safeTitle : String) (safeSeries : Option String)
    (seriesNum narrator : Option String) (year : Option Nat)
    (edition variant : Option String) : PartsOut :=
  let sn : Option String :=
    if truthyS narrator then sanitize_path_component (narrator.getD "") else some ""
  let se : Option String :=
    if truthyS edition then sanitize_path_component (edition.getD "") else some ""
  let sv : Option String :=
    if truthyS variant then sanitize_path_component (variant.getD "") else some ""
  match sn, se, sv with
  | some sn, some se, some sv =>
    let sy := if truthyYear year then toString (year.getD 0) else ""
    let ssn := if truthyS seriesNum then seriesNum.getD "" else ""
    let p := cfg.custom_naming_template.data
    let p := replaceAllL "{author}".data safeAuthor.data p
    let p := replaceAllL "{title}".data safeTitle.data p
    let p := replaceAllL "{series}".data (safeSeries.getD "").data p
    let p := replaceAllL "{series_num}".data ssn.data p
    let p := replaceAllL "{narrator}".data sn.data p
    let p := replaceAllL "{year}".data sy.data p
    let p := replaceAllL "{edition}".data se.data p
    let p := replaceAllL "{variant}".data sv.data p
    let p := removeEmptyBracketsL '(' ')' p
    let p := removeEmptyBracketsL '[' ']' p
    let p := removeEmptyBracketsL (Char.ofNat 123) (Char.ofNat 125) p
    let p := applyDashCleanL p
    let p := slashCollapseL p
    let p := spaceCollapseL p
    let p := stripSpaceSlash p
    let parts := ((p.splitOn '/').map pyStrip).filter (fun q => !q.isEmpty)
    if parts.isEmpty then .emptyParts else .parts (parts.map String.mk)
  | _, _, _ => .crash

/-- Result of `build_new_path`: `crashed` models an uncaught Python
exception, `rejected` models returning `None`. -/
inductive BuildResult where
  | crashed
  | rejected
  | built (parts : List String)
deriving DecidableEq

/-- The mandatory post-check (app.py lines 665-682): resolve the assembled
path, require it to be relative to the resolved library root, and require at
least one path segment below the root. -/
def postCheck (libPath parts : List String) : Option (List String) :=
  let resolved := resolveParts (libPath ++ parts)
  let libResolved := resolveParts libPath
  if resolved.take libResolved.length = libResolved ∧
      libResolved.length < resolved.length
  then some resolved else none

def finishBuild (libPath parts : List String) : BuildResult :=
  match postCheck libPath parts with
  | some p => .built p
  | none => .rejected

/-- `build_new_path(lib_path, author, title, series, series_num, narrator,
year, edition, variant, config)` (app.py lines 554-684). -/
def build_new_path (libPath : List String) (author title : String)
    (series seriesNum narrator : Option String) (year : Option Nat)
    (edition variant : Option String) (cfg : Config) : BuildResult :=
  match sanitize_path_component author, sanitize_path_component title with
  | some safeAuthor, some safeTitle =>
    let safeSeries :=
      if truthyS series then sanitize_path_component (series.getD "") else none
    let titleFolder :=
      buildTitleFolder cfg safeTitle safeSeries seriesNum narrator year edition variant
    if cfg.naming_format = "custom" then
      match customParts cfg safeAuthor safeTitle safeSeries seriesNum narrator year
          edition variant with
      | .crash => .crashed
      | .emptyParts => .rejected
      | .parts ps => finishBuild libPath ps
    else if cfg.naming_format = "author - title" then
      finishBuild libPath [safeAuthor ++ " - " ++ titleFolder]
    else if cfg.series_grouping && safeSeries.isSome then
      finishBuild libPath [safeAuthor, safeSeries.getD "", titleFolder]
    else
      finishBuild libPath [safeAuthor, titleFolder]
  | _, _ => .rejected

/-! ## Lemmas about the string-cleaning helpers -/

theorem mem_dropWhileL {p : Char → Bool} {c : Char} :
    ∀ {l : List Char}, c ∈ l.dropWhile p → c ∈ l := by
  intro l
  induction l with
  | nil => simp [List.dropWhile]
  | cons a l ih =>
    simp only [List.dropWhile]
    intro h
    by_cases hp : p a = true
    · simp only [hp] at h
      exact List.mem_cons_of_mem a (ih h)
    · simp only [Bool.not_eq_true] at hp
      simp only [hp] at h
      exact h

theorem head_dropWhileL {p : Char → Bool} :
    ∀ {l : List Char} {c : Char}, (l.dropWhile p).head? = some c → p c = false := by
  intro l
  induction l with
  | nil => simp [List.dropWhile]
  | cons a l ih =>
    intro c h
    simp only [List.dropWhile] at h
    by_cases hp : p a = true
    · simp only [hp] at h
      exact ih h
    · simp only [Bool.not_eq_true] at hp
      simp only [hp, List.head?_cons, Option.some.injEq] at h
      rw [← h]
      exact hp

theorem mem_stripEndBy {p : Char → Bool} {c : Char} :
    ∀ {l : List Char}, c ∈ stripEndBy p l → c ∈ l := by
  intro l
  induction l with
  | nil => simp [stripEndBy]
  | cons a l ih =>
    simp only [stripEndBy]
    intro h
    by_cases hc : (stripEndBy p l).isEmpty && p a
    · simp only [hc, if_true] at h
      exact absurd h (List.not_mem_nil c)
    · simp only [hc, if_false] at h
      rcases List.mem_cons.mp h with h | h
      · exact h ▸ List.mem_cons_self a l
      · exact List.mem_cons_of_mem a (ih h)

theorem stripEndBy_cons_of_not {p : Char → Bool} {a : Char} {l : List Char}
    (hc : ¬((stripEndBy p l).isEmpty && p a) = true) :
    stripEndBy p (a :: l) = a :: stripEndBy p l := by
  simp only [stripEndBy]
  rw [if_neg hc]

theorem getLast_stripEndBy {p : Char → Bool} :
    ∀ {l : List Char} {c : Char}, (stripEndBy p l).getLast? = some c → p c = false := by
  intro l
  induction l with
  | nil => intro c h; simp [stripEndBy] at h
  | cons a l ih =>
    intro c h
    by_cases hc : ((stripEndBy p l).isEmpty && p a) = true
    · rw [show stripEndBy p (a :: l) = [] by simp only [stripEndBy]; rw [if_pos hc]] at h
      simp at h
    · rw [stripEndBy_cons_of_not hc] at h
      cases hr : stripEndBy p l with
      | nil =>
        rw [hr] at h
        have hca : c = a := by simpa using h.symm
        subst hca
        rw [hr] at hc
        simpa using hc
      | cons b r =>
        rw [hr] at h
        rw [List.getLast?_cons_cons] at h
        exact ih (hr ▸ h)

theorem head_stripBy {p : Char → Bool} {l : List Char} {c : Char}
    (h : (l.dropWhile p).head? = some c) :
    (stripBy p l).head? = some c := by
  unfold stripBy
  cases hd : l.dropWhile p with
  | nil => rw [hd] at h; simp at h
  | cons a r =>
    rw [hd] at h
    simp only [List.head?_cons, Option.some.injEq] at h
    have hp : p a = false := head_dropWhileL (by rw [hd]; rfl)
    rw [stripEndBy_cons_of_not (by simp [hp])]
    simp [h]

theorem head_stripBy_not {p : Char → Bool} {l : List Char} {c : Char}
    (h : (stripBy p l).head? = some c) : p c = false := by
  unfold stripBy at h
  cases hd : l.dropWhile p with
  | nil => rw [hd] at h; simp [stripEndBy] at h
  | cons a r =>
    have hp : p a = false := head_dropWhileL (by rw [hd]; rfl)
    rw [hd] at h
    rw [stripEndBy_cons_of_not (by simp [hp])] at h
    simp only [List.head?_cons, Option.some.injEq] at h
    rw [← h]; exact hp

theorem getLast_stripBy_not {p : Char → Bool} {l : List Char} {c : Char}
    (h : (stripBy p l).getLast? = some c) : p c = false :=
  getLast_stripEndBy h

theorem mem_stripBy {p : Char → Bool} {l : List Char} {c : Char}
    (h : c ∈ stripBy p l) : c ∈ l :=
  mem_dropWhileL (mem_stripEndBy h)

theorem hasDotDot_cons {rest : List Char} (c : Char) (h : hasDotDot rest = true) :
    hasDotDot (c :: rest) = true := by
  cases rest with
  | nil => simp [hasDotDot] at h
  | cons b r => simp only [hasDotDot, h, Bool.or_true]

theorem isWsC_ne_dot {c : Char} (h : isWsC c = true) : c ≠ '.' := by
  intro he; subst he; simp [isWsC] at h

theorem hasDotDot_dropWhileWs {l : List Char} (h : hasDotDot l = true) :
    hasDotDot (l.dropWhile isWsC) = true := by
  induction l with
  | nil => simp [hasDotDot] at h
  | cons a l ih =>
    simp only [List.dropWhile]
    by_cases hw : isWsC a = true
    · simp only [hw]
      apply ih
      cases l with
      | nil => simp [hasDotDot] at h
      | cons b r =>
        simp only [hasDotDot] at h
        rcases Bool.or_eq_true_iff.mp h with h1 | h1
        · exact absurd (by
            have := Bool.and_eq_true_iff.mp h1
            exact of_decide_eq_true this.1) (isWsC_ne_dot hw)
        · exact h1
    · simp only [Bool.not_eq_true] at hw
      simp only [hw]
      exact h

theorem hasDotDot_stripEndByWs :
    ∀ {l : List Char}, hasDotDot l = true → hasDotDot (stripEndBy isWsC l) = true := by
  intro l
  induction l with
  | nil => intro h; simp [hasDotDot] at h
  | cons a l ih =>
    intro h
    by_cases hdd : hasDotDot l = true
    · have hr := ih hdd
      have hne : (stripEndBy isWsC l).isEmpty = false := by
        cases hq : stripEndBy isWsC l with
        | nil => rw [hq] at hr; simp [hasDotDot] at hr
        | cons x xs => rfl
      simp only [stripEndBy, hne, Bool.false_and, if_false]
      exact hasDotDot_cons a hr
    · -- the `..` must start at the head: a = '.' and l begins with '.'
      have hwd : isWsC '.' = false := by decide
      obtain ⟨r', hl⟩ : ∃ r', l = '.' :: r' := by
        cases l with
        | nil => simp [hasDotDot] at h
        | cons b r =>
          simp only [hasDotDot] at h
          rcases Bool.or_eq_true_iff.mp h with h1 | h1
          · have hb := Bool.and_eq_true_iff.mp h1
            exact ⟨r, by rw [of_decide_eq_true hb.2]⟩
          · exact absurd h1 hdd
      have ha : a = '.' := by
        rw [hl] at h hdd
        simp only [hasDotDot] at h
        rcases Bool.or_eq_true_iff.mp h with h1 | h1
        · exact of_decide_eq_true (Bool.and_eq_true_iff.mp h1).1
        · exact absurd h1 hdd
      subst ha; subst hl
      have hstep : ∀ m : List Char,
          stripEndBy isWsC ('.' :: m) = '.' :: stripEndBy isWsC m := by
        intro m
        simp [stripEndBy, hwd]
      rw [hstep, hstep]
      simp [hasDotDot]

theorem hasDotDot_pyStrip {l : List Char} (h : hasDotDot l = true) :
    hasDotDot (pyStrip l) = true := by
  unfold pyStrip stripBy
  exact hasDotDot_stripEndByWs (hasDotDot_dropWhileWs h)

/-! ## Properties of `sanitize_path_component` -/

theorem sanitize_none_of_hasDotDot {s : String} (h : hasDotDot s.data = true) :
    sanitize_path_component s = none := by
  have h2 : hasDotDot (pyStrip s.data) = true := hasDotDot_pyStrip h
  have hne : ¬(pyStrip s.data = []) := by
    intro he; rw [he] at h2; simp [hasDotDot] at h2
  unfold sanitize_path_component
  rw [if_neg hne]
  rw [if_pos (by simp [h2])]

theorem sanitize_none_of_sep {s : String} {c : Char} (hh : s.data.head? = some c)
    (hc : c = '/' ∨ c = '\\') : sanitize_path_component s = none := by
  have hw : isWsC c = false := by rcases hc with h | h <;> subst h <;> decide
  have hph : (pyStrip s.data).head? = some c := by
    apply head_stripBy
    cases hd : s.data with
    | nil => rw [hd] at hh; simp at hh
    | cons a r =>
      rw [hd] at hh
      simp only [List.head?_cons, Option.some.injEq] at hh
      rw [List.dropWhile_cons]
      rw [hh]
      simp [hw]
  have hne : ¬(pyStrip s.data = []) := by
    intro he; rw [he] at hph; simp at hph
  unfold sanitize_path_component
  rw [if_neg hne]
  rw [if_pos (by rcases hc with h | h <;> subst h <;> simp [hph])]

/-- If sanitization succeeds, the result is the dot/space-stripped filtered
form of the whitespace-stripped input, and it has length ≥ 2. -/
theorem sanitize_some_shape {s r : String} (h : sanitize_path_component s = some r) :
    r.data = stripDotSpace ((pyStrip s.data).filter (fun c => !(dangerousChars.contains c)))
      ∧ 2 ≤ r.data.length := by
  unfold sanitize_path_component at h
  by_cases h1 : pyStrip s.data = []
  · rw [if_pos h1] at h; simp at h
  · rw [if_neg h1] at h
    by_cases h2 : (hasDotDot (pyStrip s.data) || decide ((pyStrip s.data).head? = some '/')
        || decide ((pyStrip s.data).head? = some '\\')) = true
    · rw [if_pos h2] at h; simp at h
    · rw [if_neg h2] at h
      by_cases h3 :
          (stripDotSpace ((pyStrip s.data).filter
            (fun c => !(dangerousChars.contains c)))).length < 2
      · rw [if_pos h3] at h; simp at h
      · rw [if_neg h3] at h
        simp only [Option.some.injEq] at h
        constructor
        · rw [← h]
        · rw [← h]
          show 2 ≤ (stripDotSpace ((pyStrip s.data).filter
            (fun c => !(dangerousChars.contains c)))).length
          omega

theorem ctrl_mem_dangerous {c : Char} (h : c.toNat < 16) : c ∈ dangerousChars := by
  unfold dangerousChars
  apply List.mem_append_right
  exact List.mem_map.mpr ⟨c.toNat, List.mem_range.mpr h, Char.ofNat_toNat c⟩

/-! ## Properties of `build_new_path` -/

theorem finishBuild_built {lib ps p : List String} (h : finishBuild lib ps = .built p) :
    ∃ rest, rest ≠ [] ∧ p = resolveParts lib ++ rest := by
  unfold finishBuild at h
  cases hpc : postCheck lib ps with
  | none => rw [hpc] at h; simp at h
  | some q =>
    rw [hpc] at h
    simp only [BuildResult.built.injEq] at h
    unfold postCheck at hpc
    by_cases hc : (resolveParts (lib ++ ps)).take (resolveParts lib).length
          = resolveParts lib ∧
        (resolveParts lib).length < (resolveParts (lib ++ ps)).length
    · rw [if_pos hc] at hpc
      simp only [Option.some.injEq] at hpc
      refine ⟨(resolveParts (lib ++ ps)).drop (resolveParts lib).length, ?_, ?_⟩
      · intro he
        have hle := List.drop_eq_nil_iff.mp he
        omega
      · rw [← h, ← hpc]
        conv_lhs => rw [← List.take_append_drop (resolveParts lib).length
          (resolveParts (lib ++ ps))]
        rw [hc.1]
    · rw [if_neg hc] at hpc
      simp at hpc

/-- The default configuration (`naming_format='author/title'`,
`series_grouping` off, default custom template, auto-fix off, author
protection on), used to instantiate theorems at concrete inputs. -/
def cfgDefault : Config :=
  ⟨"author/title", false, "{author}/{title}", false, true⟩

/-! ## Claim C1 -/

/-- C1: For every author and title given to `build_new_path`, if either
component sanitizes to empty (fewer than 2 characters after cleaning) or
contains `..` or starts with a path separator, `build_new_path` returns
`None`; and for every input, under every naming mode, any non-`None` path
returned resolves to a strict descendant of the resolved library root with
at least one path segment below the root. -/
theorem C1_build_path_safety :
    (∀ s : String, hasDotDot s.data = true → sanitize_path_component s = none) ∧
    (∀ (s : String) (c : Char), s.data.head? = some c → c = '/' ∨ c = '\\' →
      sanitize_path_component s = none) ∧
    (∀ (libPath : List String) (author title : String)
        (series seriesNum narrator : Option String) (year : Option Nat)
        (edition variant : Option String) (cfg : Config),
      sanitize_path_component author = none ∨ sanitize_path_component title = none →
      build_new_path libPath author title series seriesNum narrator year edition variant
        cfg = .rejected) ∧
    (∀ (libPath : List String) (author title : String)
        (series seriesNum narrator : Option String) (year : Option Nat)
        (edition variant : Option String) (cfg : Config) (p : List String),
      build_new_path libPath author title series seriesNum narrator year edition variant
        cfg = .built p →
      ∃ rest, rest ≠ [] ∧ p = resolveParts libPath ++ rest) := by
  refine ⟨fun s h => sanitize_none_of_hasDotDot h,
    fun s c hh hc => sanitize_none_of_sep hh hc, ?_, ?_⟩
  · intro lib author title series sn narr y ed va cfg h
    cases hsa : sanitize_path_component author with
    | none => cases hst : sanitize_path_component title <;> simp [build_new_path, hsa, hst]
    | some a =>
      cases hst : sanitize_path_component title with
      | none => simp [build_new_path, hsa, hst]
      | some t => rcases h with h | h <;> simp_all
  · intro lib author title series sn narr y ed va cfg p h
    cases hsa : sanitize_path_component author with
    | none => cases hst : sanitize_path_component title <;> simp [build_new_path, hsa, hst] at h
    | some a =>
      cases hst : sanitize_path_component title with
      | none => simp [build_new_path, hsa, hst] at h
      | some t =>
        simp only [build_new_path, hsa, hst] at h
        repeat' split at h
        all_goals first
          | exact finishBuild_built h
          | simp at h

/-- Closed instantiation of `C1_build_path_safety` at concrete inputs. -/
theorem C1_build_path_safety_witness :
    sanitize_path_component "a..b" = none ∧
    sanitize_path_component "/etc" = none ∧
    build_new_path ["lib"] "X" "My Title" none none none none none none cfgDefault
      = .rejected ∧
    ∃ rest, rest ≠ [] ∧ (["lib", "John Doe", "My Title"] : List String)
      = resolveParts ["lib"] ++ rest :=
  ⟨C1_build_path_safety.1 "a..b" (by decide),
   C1_build_path_safety.2.1 "/etc" '/' (by decide) (Or.inl rfl),
   C1_build_path_safety.2.2.1 ["lib"] "X" "My Title" none none none none none none
     cfgDefault (Or.inl (by decide)),
   C1_build_path_safety.2.2.2 ["lib"] "John Doe" "My Title" none none none none none none
     cfgDefault ["lib", "John Doe", "My Title"] (by decide)⟩

/-! ## Claim C10 -/

/-- C10 (counterexample): the claim says a sanitized component contains "no
control characters", but `dangerous_chars` only covers `\x00`-`\x0f`; the
control character `\x10` passes through `sanitize_path_component` untouched. -/
theorem C10_control_char_counterexample :
    sanitize_path_component "ab\x10" = some "ab\x10" ∧
    Char.ofNat 16 ∈ ("ab\x10" : String).data ∧ (Char.ofNat 16).toNat < 32 := by
  decide

/-- C10 (amended): for every input string, when `sanitize_path_component`
returns a non-`None` result, that result has length at least 2, contains none
of `< > : " / \ | ? *` and no control characters in the range `\x00`-`\x0f`
(control characters `\x10`-`\x1f` can survive), does not start with a path
separator, neither starts nor ends with a dot or a space — in particular it
is never `..` and never contains a directory separator. -/
theorem C10_sanitized_component :
    ∀ s r : String, sanitize_path_component s = some r →
      2 ≤ r.length ∧
      (∀ c ∈ r.data, dangerousChars.contains c = false) ∧
      (∀ c ∈ r.data, 16 ≤ c.toNat) ∧
      (∀ c, r.data.head? = some c → c ≠ '/' ∧ c ≠ '\\' ∧ isDotSpace c = false) ∧
      (∀ c, r.data.getLast? = some c → isDotSpace c = false) ∧
      r ≠ ".." ∧
      (∀ c ∈ r.data, c ≠ '/' ∧ c ≠ '\\') := by
  intro s r h
  obtain ⟨hshape, hlen⟩ := sanitize_some_shape h
  have hmem : ∀ c ∈ r.data, dangerousChars.contains c = false := by
    intro c hc
    rw [hshape] at hc
    have hc2 := mem_stripBy hc
    have := List.mem_filter.mp hc2
    simpa using this.2
  have hmem2 : ∀ c ∈ r.data, 16 ≤ c.toNat := by
    intro c hc
    by_contra hlt
    push_neg at hlt
    have h1 : dangerousChars.contains c = true :=
      List.elem_eq_true_of_mem (ctrl_mem_dangerous hlt)
    rw [hmem c hc] at h1
    exact Bool.false_ne_true h1
  have hsep : ∀ c ∈ r.data, c ≠ '/' ∧ c ≠ '\\' := by
    intro c hc
    have h1 := hmem c hc
    constructor
    · intro he; subst he
      have : dangerousChars.contains '/' = true :=
        List.elem_eq_true_of_mem (by unfold dangerousChars; simp)
      rw [h1] at this; exact Bool.false_ne_true this
    · intro he; subst he
      have : dangerousChars.contains '\\' = true :=
        List.elem_eq_true_of_mem (by unfold dangerousChars; simp)
      rw [h1] at this; exact Bool.false_ne_true this
  have hhead : ∀ c, r.data.head? = some c → c ≠ '/' ∧ c ≠ '\\' ∧ isDotSpace c = false := by
    intro c hc
    have hm : c ∈ r.data := List.mem_of_mem_head? hc
    refine ⟨(hsep c hm).1, (hsep c hm).2, ?_⟩
    rw [hshape] at hc
    exact head_stripBy_not hc
  have hlast : ∀ c, r.data.getLast? = some c → isDotSpace c = false := by
    intro c hc
    rw [hshape] at hc
    exact getLast_stripBy_not hc
  refine ⟨hlen, hmem, hmem2, hhead, hlast, ?_, hsep⟩
  intro he
  have : r.data = ['.', '.'] := by rw [he]
  have hh := hhead '.' (by simp [this])
  simp [isDotSpace] at hh

/-- Closed instantiation of `C10_sanitized_component` at a concrete input. -/
theorem C10_sanitized_component_witness :
    2 ≤ ("John Doe" : String).length :=
  (C10_sanitized_component "John Doe" "John Doe" (by decide)).1

/-! ## Word-level text helpers shared by the similarity and drastic-change
functions.  Python `set`s of words are modelled as first-occurrence
deduplicated lists; only their membership and cardinality are used, which do
not depend on iteration order. -/

/-- `re.sub(r'[^\w\s]', ' ', t)`: replace punctuation by spaces. -/
def punctToSpace (cs : List Char) : List Char :=
  cs.map (fun c => if isWordC c || isWsC c then c else ' ')

/-- Python `str.split()`: split on whitespace runs, dropping empty pieces. -/
def pySplitAux : Nat → List Char → List (List Char)
  | 0, _ => []
  | _ + 1, [] => []
  | fuel + 1, c :: cs =>
    let cs1 := (c :: cs).dropWhile isWsC
    match cs1 with
    | [] => []
    | d :: ds =>
      let w := (d :: ds).takeWhile (fun x => !isWsC x)
      w :: pySplitAux fuel ((d :: ds).drop w.length)

def pySplit (cs : List Char) : List (List Char) :=
  pySplitAux (cs.length + 1) cs

/-! ## `calculate_title_similarity` (app.py lines 58-85) and
`is_garbage_match` (app.py lines 141-164)

The similarity score is a ratio of small set cardinalities; it is modelled
exactly in `ℚ`.  The Python code compares the score against the float
literals `0.2` and `0.3`: for every ratio `i/u` with `u` below `2^50` the
float comparison agrees with the exact rational comparison (any ratio other
than `1/5` resp. `3/10` differs from the literal by at least `1/(10u)`,
far above the rounding error), so the rational model is faithful. -/

def stopWords : List String :=
  ["the", "a", "an", "of", "and", "or", "in", "to", "for", "by", "part", "book", "volume"]

/-- The normalized significant-word set of a title: lowercase, punctuation
replaced by spaces, split, deduplicated, stop words removed. -/
def normalizeWords (t : String) : List String :=
  ((((pySplit (punctToSpace (lowerL t.data))).map String.mk).dedup).filter
    (fun w => !(stopWords.contains w)))

/-- `len(words1 & words2)`. -/
def interCount (t1 t2 : String) : Nat :=
  ((normalizeWords t1).filter (fun w => (normalizeWords t2).contains w)).length

/-- `len(words1 | words2)`. -/
def unionCount (t1 t2 : String) : Nat :=
  (normalizeWords t1).length +
    ((normalizeWords t2).filter (fun w => !((normalizeWords t1).contains w))).length

/-- `calculate_title_similarity(title1, title2)`: Jaccard word-overlap
similarity of the normalized word sets, `0` when either input or word set is
empty. -/
def calculate_title_similarity (t1 t2 : String) : ℚ :=
  if t1.isEmpty || t2.isEmpty then 0
  else if (normalizeWords t1).isEmpty || (normalizeWords t2).isEmpty then 0
  else (interCount t1 t2 : ℚ) / (unionCount t1 t2 : ℚ)

/-- The significant-word count of the query used by the leniency rule of
`is_garbage_match`: words of the raw lowercased split longer than 2
characters (punctuation and stop words are not removed here). -/
def sigWordCount (t : String) : Nat :=
  ((pySplit (lowerL t.data)).filter (fun w => 2 < w.length)).length

/-- `is_garbage_match(original_title, suggested_title, threshold)` (app.py
lines 141-164): reject when similarity is below the threshold, except that a
query of at most 2 significant words is accepted at similarity ≥ 0.2. -/
def is_garbage_match (orig sugg : String) (threshold : ℚ) : Bool :=
  let similarity := calculate_title_similarity orig sugg
  if sigWordCount orig ≤ 2 ∧ similarity ≥ 1/5 then false
  else if similarity < threshold then true
  else false

/-! ## Claim C6 -/

/-- C6: `is_garbage_match` rejects a candidate exactly when the Jaccard
word-overlap similarity of the two titles is below the 0.3 threshold, except
that for every query with at most 2 significant words the candidate is
accepted whenever the similarity is at least 0.2.  In particular
`similarity("Chapter 19", "College Accounting, Chapters 1-9") < 0.3` (it is
0) so that pair is rejected, and
`similarity("Mr. Murder", "Frankenstein") = 0` so that pair is rejected. -/
theorem C6_garbage_match_filter :
    (∀ orig sugg : String,
      is_garbage_match orig sugg (3/10) = true ↔
        ¬(sigWordCount orig ≤ 2 ∧ calculate_title_similarity orig sugg ≥ 1/5) ∧
          calculate_title_similarity orig sugg < 3/10) ∧
    calculate_title_similarity "Chapter 19" "College Accounting, Chapters 1-9" < 3/10 ∧
    is_garbage_match "Chapter 19" "College Accounting, Chapters 1-9" (3/10) = true ∧
    calculate_title_similarity "Mr. Murder" "Frankenstein" = 0 ∧
    is_garbage_match "Mr. Murder" "Frankenstein" (3/10) = true := by
  have hs1 : calculate_title_similarity "Chapter 19" "College Accounting, Chapters 1-9"
      = 0 := by
    unfold calculate_title_similarity
    rw [if_neg (by decide), if_neg (by decide),
      show interCount "Chapter 19" "College Accounting, Chapters 1-9" = 0 from by decide]
    norm_num
  have hs2 : calculate_title_similarity "Mr. Murder" "Frankenstein" = 0 := by
    unfold calculate_title_similarity
    rw [if_neg (by decide), if_neg (by decide),
      show interCount "Mr. Murder" "Frankenstein" = 0 from by decide]
    norm_num
  refine ⟨?_, by rw [hs1]; norm_num, ?_, hs2, ?_⟩
  · intro orig sugg
    simp only [is_garbage_match]
    split_ifs with h1 h2
    · exact iff_of_false (by simp) (fun hc => hc.1 h1)
    · exact iff_of_true rfl ⟨h1, h2⟩
    · exact iff_of_false (by simp) (fun hc => h2 hc.2)
  · simp only [is_garbage_match]
    rw [hs1]
    norm_num
  · simp only [is_garbage_match]
    rw [hs2]
    norm_num

/-! ## `is_drastic_author_change` (app.py lines 427-483)

The Python code takes `max(parts, key=len)` over a `set`, whose iteration
order on ties depends on string hashing; the embedding fixes the
first-occurrence order.  The theorem about the zero-overlap branch therefore
assumes the longest token is unique in each set, which makes the result
independent of that order.  The final `overlap / total < 0.3` float test is
modelled by the exact `10 * overlap < 3 * total` (faithful for these small
cardinalities, see the similarity note above). -/

def placeholderAuthors : List String :=
  ["unknown", "various", "various authors", "va", "n/a", "none",
   "audiobook", "audiobooks", "ebook", "ebooks", "book", "books",
   "author", "authors", "narrator", "untitled", "no author"]

/-- `get_name_parts(name)`: lowercase, strip punctuation, split, drop
1-letter tokens, deduplicate. -/
def get_name_parts (name : String) : List String :=
  ((((pySplit (punctToSpace (lowerL name.data))).filter
    (fun w => 1 < w.length)).map String.mk).dedup)

/-- First maximal-length element (Python `max(key=len)` under the
first-occurrence iteration order). -/
def maxByLen (ws : List String) : String :=
  ws.foldl (fun acc w => if w.length > acc.length then w else acc) ""

/-- Contiguous-substring test, Python `a in b` on strings. -/
def isSubL : List Char → List Char → Bool
  | pat, [] => pat.isEmpty
  | pat, c :: cs => pat.isPrefixOf (c :: cs) || isSubL pat cs

/-- The token-set overlap `len(old_parts & new_parts)`. -/
def name_overlap (oldA newA : String) : Nat :=
  ((get_name_parts oldA).filter (fun w => (get_name_parts newA).contains w)).length

/-- `max(len(old_parts), len(new_parts))`. -/
def name_total (oldA newA : String) : Nat :=
  max (get_name_parts oldA).length (get_name_parts newA).length

/-- The zero-overlap branch of `is_drastic_author_change` (app.py 464-473):
compare the longest token of each side; a substring match either way means
"probably same person". -/
def zeroOverlapBranch (oldParts newParts : List String) : Bool :=
  let oldLast := if oldParts.isEmpty then "" else maxByLen oldParts
  let newLast := if newParts.isEmpty then "" else maxByLen newParts
  if !oldLast.data.isEmpty && !newLast.data.isEmpty &&
      (isSubL oldLast.data newLast.data || isSubL newLast.data oldLast.data) then
    false
  else true

/-- The overlapping branch (app.py 475-483): drastic iff the overlap ratio is
below 0.3 (exact-rational model of the float comparison). -/
def ratioBranch (oldA newA : String) : Bool :=
  if 0 < name_total oldA newA ∧
      name_overlap oldA newA * 10 < 3 * name_total oldA newA then true
  else false

/-- `is_drastic_author_change(old_author, new_author)` (app.py 427-483). -/
def is_drastic_author_change (oldA newA : String) : Bool :=
  if oldA.isEmpty || newA.isEmpty then false
  else
    let oldNorm := String.mk (pyStrip (lowerL oldA.data))
    let newNorm := String.mk (pyStrip (lowerL newA.data))
    if placeholderAuthors.contains oldNorm then false
    else if oldNorm = newNorm then false
    else if name_overlap oldA newA = 0 then
      zeroOverlapBranch (get_name_parts oldA) (get_name_parts newA)
    else
      ratioBranch oldA newA

theorem foldMax_init_le (ws : List String) (init : String) :
    init.length ≤
      (ws.foldl (fun acc w => if w.length > acc.length then w else acc) init).length := by
  induction ws generalizing init with
  | nil => simp
  | cons a ws ih =>
    simp only [List.foldl_cons]
    by_cases h : a.length > init.length
    · rw [if_pos h]; exact le_trans (le_of_lt h) (ih a)
    · rw [if_neg h]; exact ih init

theorem foldMax_mem_le (ws : List String) (init : String) :
    ∀ w ∈ ws, w.length ≤
      (ws.foldl (fun acc w => if w.length > acc.length then w else acc) init).length := by
  induction ws generalizing init with
  | nil => simp
  | cons a ws ih =>
    intro w hw
    simp only [List.foldl_cons]
    rcases List.mem_cons.mp hw with hw | hw
    · subst hw
      by_cases h : w.length > init.length
      · rw [if_pos h]; exact foldMax_init_le ws w
      · rw [if_neg h]
        exact le_trans (le_of_not_lt h) (foldMax_init_le ws init)
    · by_cases h : a.length > init.length
      · rw [if_pos h]; exact ih a w hw
      · rw [if_neg h]; exact ih init w hw

theorem maxByLen_ge {ws : List String} : ∀ w ∈ ws, w.length ≤ (maxByLen ws).length :=
  foldMax_mem_le ws ""

theorem get_name_parts_len {s : String} : ∀ w ∈ get_name_parts s, 1 < w.length := by
  intro w hw
  unfold get_name_parts at hw
  have hw2 := List.mem_dedup.mp hw
  obtain ⟨v, hv, hveq⟩ := List.mem_map.mp hw2
  have hfl := List.mem_filter.mp hv
  have hlen : 1 < v.length := by simpa using hfl.2
  rw [← hveq]
  exact hlen

theorem maxByLen_data_ne {s : String} (hne : (get_name_parts s).isEmpty = false) :
    (maxByLen (get_name_parts s)).data.isEmpty = false := by
  obtain ⟨a, ws, hq⟩ : ∃ a ws, get_name_parts s = a :: ws := by
    cases hq : get_name_parts s with
    | nil => rw [hq] at hne; simp at hne
    | cons a ws => exact ⟨a, ws, rfl⟩
  have hmem : a ∈ get_name_parts s := by rw [hq]; exact List.mem_cons_self a ws
  have h1 : 1 < a.length := get_name_parts_len a hmem
  have h2 : a.length ≤ (maxByLen (get_name_parts s)).length := maxByLen_ge a hmem
  have h3 : 0 < (maxByLen (get_name_parts s)).data.length := by
    have he : (maxByLen (get_name_parts s)).length =
        (maxByLen (get_name_parts s)).data.length := rfl
    omega
  cases hd : (maxByLen (get_name_parts s)).data with
  | nil => rw [hd] at h3; simp at h3
  | cons c cs => rfl

theorem zeroOverlapBranch_eq {po pn : List String} (h1 : po.isEmpty = false)
    (h2 : pn.isEmpty = false) (hd1 : (maxByLen po).data.isEmpty = false)
    (hd2 : (maxByLen pn).data.isEmpty = false) :
    (zeroOverlapBranch po pn = false ↔
      (isSubL (maxByLen po).data (maxByLen pn).data
        || isSubL (maxByLen pn).data (maxByLen po).data) = true) := by
  simp only [zeroOverlapBranch, h1, h2, hd1, hd2, Bool.not_false, Bool.true_and]
  cases hsub : (isSubL (maxByLen po).data (maxByLen pn).data
      || isSubL (maxByLen pn).data (maxByLen po).data) with
  | true =>
    simp [hsub]
    exact ⟨by simpa using hd1, by simpa using hd2⟩
  | false => simp [hsub]

theorem name_overlap_le (oldA newA : String) :
    name_overlap oldA newA ≤ (get_name_parts oldA).length :=
  List.length_filter_le _ _

/-! ## Claim C4 -/

/-- C4: `is_drastic_author_change` returns `False` for empty arguments, for a
placeholder old author, and for case/whitespace-normalized equal strings;
with disjoint token sets it returns `False` iff the longest token of one side
is a substring of the longest token of the other (stated for inputs whose
longest tokens are unique, making the result independent of Python's
set-iteration order); with overlapping token sets it returns `True` iff
`overlap / max(|old|, |new|) < 0.3`.  The four spec examples hold. -/
theorem C4_is_drastic_author_change :
    is_drastic_author_change "Unknown" "Brandon Sanderson" = false ∧
    is_drastic_author_change "Tolkien" "J.R.R. Tolkien" = false ∧
    is_drastic_author_change "Steven Boyett" "John Dickson Carr" = true ∧
    is_drastic_author_change "Brandon Sanderson" "Brandon Sanderson" = false ∧
    (∀ a : String, is_drastic_author_change "" a = false ∧
      is_drastic_author_change a "" = false) ∧
    (∀ o n : String,
      placeholderAuthors.contains (String.mk (pyStrip (lowerL o.data))) = true →
      is_drastic_author_change o n = false) ∧
    (∀ o n : String,
      String.mk (pyStrip (lowerL o.data)) = String.mk (pyStrip (lowerL n.data)) →
      is_drastic_author_change o n = false) ∧
    (∀ o n : String,
      o.isEmpty = false → n.isEmpty = false →
      placeholderAuthors.contains (String.mk (pyStrip (lowerL o.data))) = false →
      String.mk (pyStrip (lowerL o.data)) ≠ String.mk (pyStrip (lowerL n.data)) →
      name_overlap o n = 0 →
      (get_name_parts o).isEmpty = false → (get_name_parts n).isEmpty = false →
      (∀ w ∈ get_name_parts o, w ≠ maxByLen (get_name_parts o) →
        w.length < (maxByLen (get_name_parts o)).length) →
      (∀ w ∈ get_name_parts n, w ≠ maxByLen (get_name_parts n) →
        w.length < (maxByLen (get_name_parts n)).length) →
      (is_drastic_author_change o n = false ↔
        (isSubL (maxByLen (get_name_parts o)).data (maxByLen (get_name_parts n)).data
          || isSubL (maxByLen (get_name_parts n)).data
              (maxByLen (get_name_parts o)).data) = true)) ∧
    (∀ o n : String,
      o.isEmpty = false → n.isEmpty = false →
      placeholderAuthors.contains (String.mk (pyStrip (lowerL o.data))) = false →
      String.mk (pyStrip (lowerL o.data)) ≠ String.mk (pyStrip (lowerL n.data)) →
      name_overlap o n ≠ 0 →
      (is_drastic_author_change o n = true ↔
        name_overlap o n * 10 < 3 * name_total o n)) := by
  refine ⟨by decide, by decide, by decide, by decide, ?_, ?_, ?_, ?_, ?_⟩
  · intro a
    have he : ("" : String).isEmpty = true := by decide
    constructor
    · unfold is_drastic_author_change
      rw [if_pos (by rw [he]; simp)]
    · unfold is_drastic_author_change
      rw [if_pos (by rw [he]; simp)]
  · intro o n hp
    simp only [is_drastic_author_change]
    by_cases he : (o.isEmpty || n.isEmpty) = true
    · rw [if_pos he]
    · rw [if_neg he, if_pos hp]
  · intro o n hq
    simp only [is_drastic_author_change]
    by_cases he : (o.isEmpty || n.isEmpty) = true
    · rw [if_pos he]
    · rw [if_neg he]
      by_cases hpl : placeholderAuthors.contains (String.mk (pyStrip (lowerL o.data))) = true
      · rw [if_pos hpl]
      · rw [if_neg hpl, if_pos hq]
  · intro o n ho hn hpl hq hov hone hnne humax1 humax2
    simp only [is_drastic_author_change]
    rw [if_neg (by rw [ho, hn]; simp), if_neg (by rw [hpl]; simp), if_neg hq,
      if_pos hov]
    exact zeroOverlapBranch_eq hone hnne (maxByLen_data_ne hone) (maxByLen_data_ne hnne)
  · intro o n ho hn hpl hq hov
    simp only [is_drastic_author_change]
    rw [if_neg (by rw [ho, hn]; simp), if_neg (by rw [hpl]; simp), if_neg hq, if_neg hov]
    have htot : 0 < name_total o n := by
      have h1 := name_overlap_le o n
      have h2 : 0 < (get_name_parts o).length := by omega
      unfold name_total
      omega
    unfold ratioBranch
    by_cases hr : name_overlap o n * 10 < 3 * name_total o n
    · rw [if_pos ⟨htot, hr⟩]
      exact iff_of_true rfl hr
    · rw [if_neg (fun hc => hr hc.2)]
      exact iff_of_false (by simp) hr

/-- Closed instantiation of `C4_is_drastic_author_change` at concrete
inputs for the hypothesized clauses. -/
theorem C4_is_drastic_author_change_witness :
    is_drastic_author_change "Unknown" "Brandon Sanderson" = false ∧
    is_drastic_author_change "Bob Smith" " bob smith " = false ∧
    (is_drastic_author_change "Rowling" "J.K. Galbraith" = false ↔
      (isSubL (maxByLen (get_name_parts "Rowling")).data
        (maxByLen (get_name_parts "J.K. Galbraith")).data
        || isSubL (maxByLen (get_name_parts "J.K. Galbraith")).data
            (maxByLen (get_name_parts "Rowling")).data) = true) ∧
    (is_drastic_author_change "Tolkien" "J.R.R. Tolkien" = true ↔
      name_overlap "Tolkien" "J.R.R. Tolkien" * 10
        < 3 * name_total "Tolkien" "J.R.R. Tolkien") :=
  ⟨C4_is_drastic_author_change.2.2.2.2.2.1 "Unknown" "Brandon Sanderson" (by decide),
   C4_is_drastic_author_change.2.2.2.2.2.2.1 "Bob Smith" " bob smith " (by decide),
   C4_is_drastic_author_change.2.2.2.2.2.2.2.1 "Rowling" "J.K. Galbraith" (by decide)
     (by decide) (by decide) (by decide) (by decide) (by decide) (by decide)
     (by decide) (by decide),
   C4_is_drastic_author_change.2.2.2.2.2.2.2.2 "Tolkien" "J.R.R. Tolkien" (by decide)
     (by decide) (by decide) (by decide) (by decide)⟩

/-! ## Regex matching combinators

Each Python pattern used by the source is hand-translated into a matcher
over `List Char`.  Backtracking choice points (lazy `(.+?)`, greedy `\s*` /
`\s+` / `[...]+`, optional groups) are enumerated as candidate-remainder
lists in the `re` module's preference order and searched depth-first with
`firstHit`, so the first success coincides with the Python match.  `(\d+)`
groups are taken greedily without enumeration: in every pattern below the
following element cannot match a digit, so giving digits back can never
help. -/

/-- Try alternatives in preference order; first success wins. -/
def firstHit {α β : Type} : List α → (α → Option β) → Option β
  | [], _ => none
  | x :: xs, f =>
    match f x with
    | some r => some r
    | none => firstHit xs f

/-- Candidate `(captured, remainder)` splits for a lazy `(.+?)` group:
non-empty newline-free prefixes, shortest first. -/
def lazySplitsAux : List Char → List Char → List (List Char × List Char)
  | _, [] => []
  | acc, c :: cs =>
    if c = '\n' then []
    else (acc ++ [c], cs) :: lazySplitsAux (acc ++ [c]) cs

def lazySplits (cs : List Char) : List (List Char × List Char) :=
  lazySplitsAux [] cs

/-- Remainders after a greedy `P*`, longest consumption first. -/
def starRems (p : Char → Bool) (cs : List Char) : List (List Char) :=
  let k := (cs.takeWhile p).length
  (List.range (k + 1)).map (fun i => cs.drop (k - i))

/-- Remainders after a greedy `P+`, longest consumption first. -/
def plusRems (p : Char → Bool) (cs : List Char) : List (List Char) :=
  let k := (cs.takeWhile p).length
  (List.range k).map (fun i => cs.drop (k - i))

/-- Consume a case-sensitive literal. -/
def dropLit (lit cs : List Char) : Option (List Char) :=
  if lit.isPrefixOf cs then some (cs.drop lit.length) else none

/-- Consume a case-insensitive literal (given in lowercase). -/
def dropLitCI (lit cs : List Char) : Option (List Char) :=
  if decide (lit.length ≤ cs.length) && ((cs.take lit.length).map lowerC == lit) then
    some (cs.drop lit.length)
  else none

/-- Greedy `(\d+)` capture. -/
def digitsSplit (cs : List Char) : Option (List Char × List Char) :=
  let d := cs.takeWhile isDigitC
  if d.isEmpty then none else some (d, cs.drop d.length)

/-- `int(...)` of a captured digit string. -/
def digitsVal (d : List Char) : Nat :=
  d.foldl (fun n c => n * 10 + (c.toNat - 48)) 0

/-- The class `[:\s-]` of the series patterns. -/
def isSepC (c : Char) : Bool :=
  c = ':' || isWsC c || c = '-'

/-- Trailing `(.+)$` group: the whole (non-empty, newline-free) remainder. -/
def dotPlusEnd (cs : List Char) : Option (List Char) :=
  if !cs.isEmpty && cs.all (fun c => c ≠ '\n') then some cs else none

/-- `\s*$`. -/
def wsEnd (cs : List Char) : Bool :=
  cs.all isWsC

/-- Remainder candidates for an optional element, consumed-first (greedy
`(...)?`). -/
def optRems (f : List Char → Option (List Char)) (cs : List Char) : List (List Char) :=
  match f cs with
  | some r => [r, cs]
  | none => [cs]

/-! ## `extract_series_from_title` (app.py lines 88-138) -/

/-- `(?:The\s+)?` prefix candidates. -/
def thePrefixRems (cs : List Char) : List (List Char) :=
  match dropLitCI "the".data cs with
  | some r => (plusRems isWsC r) ++ [cs]
  | none => [cs]

/-- `^(?:The\s+)?(.+?)\s*(?:Series)?,?\s*Book\s+(\d+)\s*[:\s-]+(.+)$` (ci). -/
def seriesPat1 (cs : List Char) : Option (List Char × Nat × List Char) :=
  firstHit (thePrefixRems cs) fun cs1 =>
  firstHit (lazySplits cs1) fun (g1, r1) =>
  firstHit (starRems isWsC r1) fun r2 =>
  firstHit (optRems (dropLitCI "series".data) r2) fun r3 =>
  firstHit (optRems (dropLit ",".data) r3) fun r4 =>
  firstHit (starRems isWsC r4) fun r5 =>
  (dropLitCI "book".data r5).bind fun r6 =>
  firstHit (plusRems isWsC r6) fun r7 =>
  (digitsSplit r7).bind fun (d, r8) =>
  firstHit (starRems isWsC r8) fun r9 =>
  firstHit (plusRems isSepC r9) fun r10 =>
  (dotPlusEnd r10).map fun g3 => (g1, digitsVal d, g3)

/-- `^(.+?)\s*#(\d+)\s*[:\s-]+(.+)$`. -/
def seriesPat2 (cs : List Char) : Option (List Char × Nat × List Char) :=
  firstHit (lazySplits cs) fun (g1, r1) =>
  firstHit (starRems isWsC r1) fun r2 =>
  (dropLit "#".data r2).bind fun r3 =>
  (digitsSplit r3).bind fun (d, r4) =>
  firstHit (starRems isWsC r4) fun r5 =>
  firstHit (plusRems isSepC r5) fun r6 =>
  (dotPlusEnd r6).map fun g3 => (g1, digitsVal d, g3)

/-- `^(.+?)\s+Book\s+(\d+)\s*[:\s-]+(.+)$` (ci). -/
def seriesPat3 (cs : List Char) : Option (List Char × Nat × List Char) :=
  firstHit (lazySplits cs) fun (g1, r1) =>
  firstHit (plusRems isWsC r1) fun r2 =>
  (dropLitCI "book".data r2).bind fun r3 =>
  firstHit (plusRems isWsC r3) fun r4 =>
  (digitsSplit r4).bind fun (d, r5) =>
  firstHit (starRems isWsC r5) fun r6 =>
  firstHit (plusRems isSepC r6) fun r7 =>
  (dotPlusEnd r7).map fun g3 => (g1, digitsVal d, g3)

/-- `^(.+?)\s+Book\s+(\d+)\s*$` (ci). -/
def seriesPat4 (cs : List Char) : Option (List Char × Nat) :=
  firstHit (lazySplits cs) fun (g1, r1) =>
  firstHit (plusRems isWsC r1) fun r2 =>
  (dropLitCI "book".data r2).bind fun r3 =>
  firstHit (plusRems isWsC r3) fun r4 =>
  (digitsSplit r4).bind fun (d, r5) =>
  if wsEnd r5 then some (g1, digitsVal d) else none

/-- `^(.+?)\s*#(\d+)\s*$`. -/
def seriesPat5 (cs : List Char) : Option (List Char × Nat) :=
  firstHit (lazySplits cs) fun (g1, r1) =>
  firstHit (starRems isWsC r1) fun r2 =>
  (dropLit "#".data r2).bind fun r3 =>
  (digitsSplit r3).bind fun (d, r4) =>
  if wsEnd r4 then some (g1, digitsVal d) else none

/-- `^(.+?)\s*\(Book\s+(\d+)\)\s*$` (ci). -/
def seriesPat6 (cs : List Char) : Option (List Char × Nat) :=
  firstHit (lazySplits cs) fun (g1, r1) =>
  firstHit (starRems isWsC r1) fun r2 =>
  (dropLit "(".data r2).bind fun r3 =>
  (dropLitCI "book".data r3).bind fun r4 =>
  firstHit (plusRems isWsC r4) fun r5 =>
  (digitsSplit r5).bind fun (d, r6) =>
  (dropLit ")".data r6).bind fun r7 =>
  if wsEnd r7 then some (g1, digitsVal d) else none

/-- Does `\s*Series\s*$` (ci) match the whole remainder? -/
def seriesSuffixHere (cs : List Char) : Bool :=
  (firstHit (starRems isWsC cs) fun r =>
    (dropLitCI "series".data r).bind fun r2 =>
    if wsEnd r2 then some () else none).isSome

/-- `re.sub(r'\s*Series\s*$', '', series)`: delete the leftmost (and only
possible) match, which extends to the end of the string. -/
def stripSeriesSuffixAux : Nat → List Char → List Char
  | 0, cs => cs
  | _ + 1, [] => []
  | fuel + 1, c :: cs =>
    if seriesSuffixHere (c :: cs) then []
    else c :: stripSeriesSuffixAux fuel cs

def stripSeriesSuffix (cs : List Char) : List Char :=
  stripSeriesSuffixAux cs.length cs

/-- Normalize Windows-substitute colons `꞉` (U+A789) and `：` (U+FF1A). -/
def normColons (cs : List Char) : List Char :=
  cs.map (fun c => if c = '꞉' || c = '：' then ':' else c)

/-- `extract_series_from_title(title)` (app.py 88-138): try the six patterns
in their source order and post-process the captures exactly as the source
does. -/
def extract_series_from_title (title : String) : Option String × Option Nat × String :=
  let normalized := normColons title.data
  match seriesPat1 normalized with
  | some (g1, n, g3) =>
    (some (String.mk (stripSeriesSuffix (pyStrip g1))), some n, String.mk (pyStrip g3))
  | none =>
  match seriesPat2 normalized with
  | some (g1, n, g3) => (some (String.mk (pyStrip g1)), some n, String.mk (pyStrip g3))
  | none =>
  match seriesPat3 normalized with
  | some (g1, n, g3) => (some (String.mk (pyStrip g1)), some n, String.mk (pyStrip g3))
  | none =>
  match seriesPat4 normalized with
  | some (g1, n) => (some (String.mk (pyStrip g1)), some n, String.mk (pyStrip g1))
  | none =>
  match seriesPat5 normalized with
  | some (g1, n) => (some (String.mk (pyStrip g1)), some n, String.mk (pyStrip g1))
  | none =>
  match seriesPat6 normalized with
  | some (g1, n) => (none, some n, String.mk (pyStrip g1))
  | none => (none, none, title)

/-- `"Ivypool's Heart (Book 17)"` (apostrophe written as a character code). -/
def ivypoolFolder : String :=
  String.mk ['I', 'v', 'y', 'p', 'o', 'o', 'l', Char.ofNat 39, 's', ' ',
    'H', 'e', 'a', 'r', 't', ' ', '(', 'B', 'o', 'o', 'k', ' ', '1', '7', ')']

/-- `"Ivypool's Heart"`. -/
def ivypoolHeart : String :=
  String.mk ['I', 'v', 'y', 'p', 'o', 'o', 'l', Char.ofNat 39, 's', ' ',
    'H', 'e', 'a', 'r', 't']

/-! ## Claim C7 -/

/-- C7: `extract_series_from_title` applies its patterns in the source's
fixed priority order ("Series, Book N: Title", then "Series #N - Title",
then "Series Book N" forms, then "Title (Book N)"); in particular the first
spec example is decided by the first pattern even though the third also
matches it.  The three spec examples evaluate as claimed. -/
theorem C7_extract_series_from_title :
    extract_series_from_title "The Firefly Series, Book 8: Coup de Grâce"
      = (some "Firefly", some 8, "Coup de Grâce") ∧
    extract_series_from_title "Mistborn #1" = (some "Mistborn", some 1, "Mistborn") ∧
    extract_series_from_title ivypoolFolder = (none, some 17, ivypoolHeart) := by
  refine ⟨by decide, by decide, by decide⟩

/-! ## Lexical folder-name classifiers local to `analyze_full_path`
(app.py lines 1788-1831) -/

/-- `[A-Z][a-z]+` (an uppercase letter then one or more lowercase). -/
def upLow (cs : List Char) : Option (List Char) :=
  match cs with
  | c :: rest =>
    if isUpperC c then
      let l := rest.takeWhile isLowerC
      if l.isEmpty then none else some (rest.drop l.length)
    else none
  | [] => none

/-- `[A-Z]\.`. -/
def upDot (cs : List Char) : Option (List Char) :=
  match cs with
  | a :: '.' :: r => if isUpperC a then some r else none
  | _ => none

/-- `\s+` (single deterministic maximal run; the following element in every
use is not whitespace). -/
def wsPlus1 (cs : List Char) : Option (List Char) :=
  let w := cs.takeWhile isWsC
  if w.isEmpty then none else some (cs.drop w.length)

/-- `\s*` (maximal run; the following element in every use is not
whitespace). -/
def wsStar1 (cs : List Char) : List Char :=
  cs.drop (cs.takeWhile isWsC).length

def endOk : Option (List Char) → Bool
  | some r => r.isEmpty
  | none => false

/-- Greedy `([A-Z]\.)*`. -/
def pairsStar : List Char → List Char
  | a :: '.' :: rest => if isUpperC a then pairsStar rest else a :: '.' :: rest
  | cs => cs

/-- `looks_like_person_name(name)` (app.py 1788-1798): the six anchored
person-name patterns. -/
def looks_like_person_name (name : String) : Bool :=
  let cs := name.data
  -- ^[A-Z][a-z]+\s+[A-Z][a-z]+$
  endOk (((upLow cs).bind wsPlus1).bind upLow) ||
  -- ^[A-Z][a-z]+\s+[A-Z][a-z]+\s+[A-Z][a-z]+$
  endOk (((((upLow cs).bind wsPlus1).bind upLow).bind wsPlus1).bind upLow) ||
  -- ^[A-Z]\.\s*[A-Z][a-z]+$
  endOk (((upDot cs).map wsStar1).bind upLow) ||
  -- ^[A-Z][a-z]+\s+[A-Z]\.\s*[A-Z][a-z]+$
  endOk ((((((upLow cs).bind wsPlus1).bind upDot).map wsStar1).bind upLow)) ||
  -- ^[A-Z][a-z]+,\s+[A-Z][a-z]+$
  endOk ((((upLow cs).bind (fun r => dropLit ",".data r)).bind wsPlus1).bind upLow) ||
  -- ^[A-Z]\.([A-Z]\.)+\s*[A-Z][a-z]+$
  endOk (((((upDot cs).bind upDot).map pairsStar).map wsStar1).bind upLow)

/-- Alternation of literals followed by `\s*\d+` (with backtracking across
the alternatives, e.g. `vol` vs `volume`). -/
def altWsDigits (alts : List (List Char)) (cs : List Char) : Bool :=
  (firstHit alts fun l =>
    (dropLitCI l cs).bind fun r =>
      if (wsStar1 r |>.takeWhile isDigitC).isEmpty then none else some ()).isSome

/-- `^\d+\s*[-–]\s*(disc|disk|cd|part)` (ci). -/
def digitDashAlt (cs : List Char) : Bool :=
  let d := cs.takeWhile isDigitC
  if d.isEmpty then false
  else
    match wsStar1 (cs.drop d.length) with
    | c :: r2 =>
      if c = '-' || c = '–' then
        (firstHit ["disc".data, "disk".data, "cd".data, "part".data]
          (fun l => dropLitCI l (wsStar1 r2))).isSome
      else false
    | [] => false

/-- `^(side)\s*[ab12]` (ci). -/
def sidePat (cs : List Char) : Bool :=
  match dropLitCI "side".data cs with
  | some r =>
    match wsStar1 r with
    | c :: _ => lowerC c = 'a' || lowerC c = 'b' || c = '1' || c = '2'
    | [] => false
  | none => false

/-- `looks_like_disc_chapter(name)` (app.py 1800-1809). -/
def looks_like_disc_chapter (name : String) : Bool :=
  let cs := name.data
  altWsDigits ["disc".data, "disk".data, "cd".data, "dvd".data] cs ||
  altWsDigits ["part".data, "chapter".data, "ch".data] cs ||
  digitDashAlt cs ||
  sidePat cs ||
  (decide (1 ≤ cs.length) && decide (cs.length ≤ 2) && cs.all isDigitC)

/-- The class `[-–:.]`. -/
def isNumSepC (c : Char) : Bool :=
  c = '-' || c = '–' || c = ':' || c = '.'

/-- `^\d+\s*[-–:.]\s*\w`. -/
def numSepWord (cs : List Char) : Bool :=
  let d := cs.takeWhile isDigitC
  if d.isEmpty then false
  else
    match wsStar1 (cs.drop d.length) with
    | c :: r2 =>
      if isNumSepC c then
        match wsStar1 r2 with
        | e :: _ => isWordC e
        | [] => false
      else false
    | [] => false

/-- `^#?\d+\s*[-–:]`. -/
def hashNumSep (cs : List Char) : Bool :=
  let cs1 := match cs with | '#' :: r => r | _ => cs
  let d := cs1.takeWhile isDigitC
  if d.isEmpty then false
  else
    match wsStar1 (cs1.drop d.length) with
    | c :: _ => c = '-' || c = '–' || c = ':'
    | [] => false

/-- `looks_like_book_number(name)` (app.py 1811-1818). -/
def looks_like_book_number (name : String) : Bool :=
  let cs := name.data
  altWsDigits ["book".data, "vol".data, "volume".data, "part".data] cs ||
  numSepWord cs ||
  hashNumSep cs

/-- A four-digit year `19xx`/`20xx` with word boundaries starting here. -/
def yearAt (prev : Option Char) (cs : List Char) : Bool :=
  match cs with
  | a :: b :: c :: d :: rest =>
    (((a = '1' && b = '9') || (a = '2' && b = '0')) && isDigitC c && isDigitC d)
    && (match prev with | some p => !isWordC p | none => true)
    && (match rest with | e :: _ => !isWordC e | [] => true)
  | _ => false

def searchYear : Option Char → List Char → Bool
  | _, [] => false
  | prev, c :: cs => yearAt prev (c :: cs) || searchYear (some c) cs

/-- `looks_like_title_with_year(name)` (app.py 1820-1822):
`\b(19[0-9]{2}|20[0-9]{2})\b` search. -/
def looks_like_title_with_year (name : String) : Bool :=
  searchYear none name.data

/-- Is there a non-word character (or the string end) here? -/
def bAfter : List Char → Bool
  | [] => true
  | e :: _ => !isWordC e

/-- A whole-word occurrence (ci) of `lit` (with optional plural `s` when
`optS`) starting at this position. -/
def wordAt (lit : List Char) (optS : Bool) (prev : Option Char) (cs : List Char) : Bool :=
  match dropLitCI lit cs with
  | some r =>
    (match prev with | some p => !isWordC p | none => true) &&
    (if optS then
      (match dropLitCI "s".data r with
       | some r2 => bAfter r2 || bAfter r
       | none => bAfter r)
    else bAfter r)
  | none => false

def searchWord (lit : List Char) (optS : Bool) : Option Char → List Char → Bool
  | _, [] => false
  | prev, c :: cs => wordAt lit optS prev (c :: cs) || searchWord lit optS (some c) cs

/-- `looks_like_series_name(name)` (app.py 1824-1831): whole-word search for
series/saga/chronicles/trilogy/cycle/universe/books?. -/
def looks_like_series_name (name : String) : Bool :=
  let cs := name.data
  searchWord "series".data false none cs ||
  searchWord "saga".data false none cs ||
  searchWord "chronicles".data false none cs ||
  searchWord "trilogy".data false none cs ||
  searchWord "cycle".data false none cs ||
  searchWord "universe".data false none cs ||
  searchWord "book".data true none cs

/-- `^(.+?)\s*(?:book|vol)\s*\d+\s*[-–:]\s*(.+)$` (ci), the
"SeriesName Book N - ActualTitle" split at app.py 1907. -/
def bookNumMatch (cs : List Char) : Option (List Char × List Char) :=
  firstHit (lazySplits cs) fun (g1, r1) =>
  firstHit (starRems isWsC r1) fun r2 =>
  firstHit (["book".data, "vol".data].filterMap (fun l => dropLitCI l r2)) fun r3 =>
  firstHit (starRems isWsC r3) fun r4 =>
  (digitsSplit r4).bind fun (_, r5) =>
  firstHit (starRems isWsC r5) fun r6 =>
  match r6 with
  | c :: r7 =>
    if c = '-' || c = '–' || c = ':' then
      firstHit (starRems isWsC r7) fun r8 =>
      (dotPlusEnd r8).map fun g2 => (g1, g2)
    else none
  | [] => none

/-! ## `analyze_full_path` (app.py lines 1745-2058)

The database lookups `is_known_author` / `is_known_series` are tri-state
(found / not-found / lookup-failed, app.py 1833-1885); they are passed in as
functions `String → Option Bool` where `none` models a failed lookup. -/

/-- `pathlib` stem/suffix split of a file name: the suffix starts at the last
dot, provided that dot is neither the first nor the last character. -/
def fileSplit (name : List Char) : List Char × List Char :=
  let pre := name.reverse.takeWhile (fun c => c ≠ '.')
  if pre.length = name.length then (name, [])
  else
    let i := name.length - pre.length - 1
    if i = 0 then (name, [])
    else if pre.isEmpty then (name, [])
    else (name.take i, name.drop i)

/-- The mutable state threaded through the bottom-up folder loop. -/
structure ClassState where
  detectedAuthor : Option String
  detectedTitle : Option String
  detectedSeries : Option String
  bookFolderIdx : Option Nat
  folderRoles : List (String × String)
  issues : List String
deriving DecidableEq

/-- Python `dict` assignment `folder_roles[folder] = role`. -/
def setRole (roles : List (String × String)) (k v : String) : List (String × String) :=
  if roles.any (fun p => p.1 = k) then
    roles.map (fun p => if p.1 = k then (k, v) else p)
  else roles ++ [(k, v)]

/-- One iteration of the classification loop at index `i` (app.py
1893-2015). -/
def classifyStep (dbAuthor dbSeries : String → Option Bool) (folders : List String)
    (st : ClassState) (i : Nat) : ClassState :=
  let folder := folders.getD i ""
  if looks_like_disc_chapter folder then
    { st with folderRoles := setRole st.folderRoles folder "disc_chapter" }
  else if st.bookFolderIdx = none then
    let st := { st with
      bookFolderIdx := some i
      folderRoles := setRole st.folderRoles folder "book_title"
      detectedTitle := some folder }
    match bookNumMatch folder.data with
    | some (g1, g2) =>
      { st with
        detectedSeries := some (String.mk (pyStrip g1))
        detectedTitle := some (String.mk (pyStrip g2)) }
    | none => st
  else
    let authorResult := dbAuthor folder
    let seriesResult := dbSeries folder
    let parentIsPerson :=
      decide (0 < i) && looks_like_person_name (folders.getD (i - 1) "")
    let isMiddle := match st.bookFolderIdx with
      | some b => decide (i < b)
      | none => false
    if authorResult = none ∨ seriesResult = none then
      -- database unavailable: record the marker once, use patterns only
      let st := if st.issues.contains "db_lookup_failed" then st
        else { st with issues := st.issues ++ ["db_lookup_failed"] }
      if looks_like_person_name folder then
        { st with
            folderRoles := setRole st.folderRoles folder "author"
            detectedAuthor := some folder }
      else if looks_like_book_number folder then
        { st with folderRoles := setRole st.folderRoles folder "book_number" }
      else if looks_like_series_name folder || looks_like_title_with_year folder then
        { st with
            folderRoles := setRole st.folderRoles folder "series"
            detectedSeries :=
              if st.detectedSeries = none then some folder else st.detectedSeries }
      else if st.detectedAuthor = none then
        if parentIsPerson && isMiddle then
          { st with
              folderRoles := setRole st.folderRoles folder "series"
              detectedSeries := some folder }
        else
          { st with
              folderRoles := setRole st.folderRoles folder "likely_author"
              detectedAuthor := some folder }
      else st
    else
      let dbA := authorResult.getD false
      let dbS := seriesResult.getD false
      if dbA && !dbS then
        if parentIsPerson && isMiddle && !looks_like_person_name folder then
          { st with
              folderRoles := setRole st.folderRoles folder "series"
              detectedSeries :=
                if st.detectedSeries = none then some folder else st.detectedSeries }
        else
          { st with
              folderRoles := setRole st.folderRoles folder "author"
              detectedAuthor := some folder }
      else if dbS && !dbA then
        { st with
            folderRoles := setRole st.folderRoles folder "series"
            detectedSeries :=
              if st.detectedSeries = none then some folder else st.detectedSeries }
      else if dbA && dbS then
        if parentIsPerson && isMiddle then
          { st with
              folderRoles := setRole st.folderRoles folder "series"
              detectedSeries :=
                if st.detectedSeries = none then some folder else st.detectedSeries }
        else if looks_like_person_name folder && !isMiddle then
          { st with
              folderRoles := setRole st.folderRoles folder "author"
              detectedAuthor := some folder }
        else
          { st with
              folderRoles := setRole st.folderRoles folder "series"
              detectedSeries :=
                if st.detectedSeries = none then some folder else st.detectedSeries }
      else if looks_like_person_name folder then
        { st with
            folderRoles := setRole st.folderRoles folder "author"
            detectedAuthor := some folder }
      else if looks_like_book_number folder then
        let st := { st with folderRoles := setRole st.folderRoles folder "book_number" }
        if (match st.detectedTitle with
            | some t => !t.isEmpty && looks_like_book_number t
            | none => false) then
          { st with detectedTitle := some folder }
        else st
      else if looks_like_series_name folder || looks_like_title_with_year folder then
        { st with
            folderRoles := setRole st.folderRoles folder "series"
            detectedSeries :=
              if st.detectedSeries = none then some folder else st.detectedSeries }
      else if st.detectedAuthor = none then
        if (match st.bookFolderIdx with | some b => decide (i < b) | none => false)
            && !looks_like_person_name folder then
          if decide (0 < i) && looks_like_person_name (folders.getD (i - 1) "") then
            { st with
                folderRoles := setRole st.folderRoles folder "series"
                detectedSeries := some folder }
          else
            { st with
                folderRoles := setRole st.folderRoles folder "likely_author"
                detectedAuthor := some folder }
        else
          { st with
              folderRoles := setRole st.folderRoles folder "likely_author"
              detectedAuthor := some folder }
      else st

/-- The classification loop, from the deepest folder up
(`for i in range(len(folders)-1, -1, -1)`). -/
def classifyFolders (dbAuthor dbSeries : String → Option Bool)
    (folders : List String) : ClassState :=
  ((List.range folders.length).reverse).foldl
    (classifyStep dbAuthor dbSeries folders)
    ⟨none, none, none, none, [], []⟩

/-- The result record of `analyze_full_path` (its `depth` key is absent in
the loose-file early return, hence `Option Nat`). -/
structure PathAnalysis where
  bookFolder : List String
  detectedAuthor : String
  detectedTitle : String
  detectedSeries : Option String
  folderRoles : List (String × String)
  confidence : String
  issues : List String
  depth : Option Nat
deriving DecidableEq

/-- The validation, reversed-structure check and output assembly after the
loop (app.py 2017-2058). -/
def finalizeAnalysis (libRoot folders : List String) (fileStem : String)
    (st : ClassState) : PathAnalysis :=
  let bookFolder := match st.bookFolderIdx with
    | some b => libRoot ++ folders.take (b + 1)
    | none => libRoot ++ folders
  let issues := st.issues
  let issues := match st.detectedAuthor with
    | some a => if !a.isEmpty && !looks_like_person_name a
        then issues ++ ["author_not_name_pattern:" ++ a] else issues
    | none => issues
  let issues := match st.detectedAuthor with
    | some a => if !a.isEmpty && looks_like_title_with_year a
        then issues ++ ["author_looks_like_title:" ++ a] else issues
    | none => issues
  let issues := match st.detectedTitle with
    | some t => if !t.isEmpty && looks_like_person_name t
        then issues ++ ["title_looks_like_author:" ++ t] else issues
    | none => issues
  let reversedStructure := match st.detectedAuthor, st.detectedTitle with
    | some a, some t =>
      !a.isEmpty && !t.isEmpty &&
        looks_like_title_with_year a && looks_like_person_name t
    | _, _ => false
  let issues := if reversedStructure
    then issues ++ ["STRUCTURE_LIKELY_REVERSED"] else issues
  let da := if reversedStructure then st.detectedTitle else st.detectedAuthor
  let dt := if reversedStructure then st.detectedAuthor else st.detectedTitle
  let confidence := match da with
    | some a =>
      if a.isEmpty then "low"
      else if looks_like_person_name a then "high"
      else "medium"
    | none => "low"
  { bookFolder := bookFolder
    detectedAuthor := match da with
      | some a => if a.isEmpty then "Unknown" else a
      | none => "Unknown"
    detectedTitle := match dt with
      | some t => if t.isEmpty then fileStem else t
      | none => fileStem
    detectedSeries := st.detectedSeries
    folderRoles := st.folderRoles
    confidence := confidence
    issues := issues
    depth := some folders.length }

/-- `analyze_full_path(audio_file_path, library_root)` (app.py 1745-2058),
over the path model (both paths as absolute component lists, the file name
last). -/
def analyze_full_path (dbAuthor dbSeries : String → Option Bool)
    (audioFilePath libraryRoot : List String) : Option PathAnalysis :=
  if libraryRoot.isPrefixOf audioFilePath then
    let rel := audioFilePath.drop libraryRoot.length
    let fname := audioFilePath.getLast?.getD ""
    let fileStem := String.mk (fileSplit fname.data).1
    if rel.length < 2 then
      some { bookFolder := libraryRoot, detectedAuthor := "Unknown",
             detectedTitle := fileStem, detectedSeries := none, folderRoles := [],
             confidence := "low", issues := ["loose_file_no_structure"], depth := none }
    else
      let folders := rel.dropLast
      some (finalizeAnalysis libraryRoot folders fileStem
        (classifyFolders dbAuthor dbSeries folders))
  else none

/-! ## Claim C8 -/

/-- A name database in which `"Book 12 Saga"` is a known author (lookups
succeed). -/
def dbAuthorStub : String → Option Bool :=
  fun s => if s = "Book 12 Saga" then some true else some false

/-- A name database with no known series (lookups succeed). -/
def dbSeriesStub : String → Option Bool :=
  fun _ => some false

/-- C8 (counterexample): the claim's trigger is "the author segment has a
year, title-stopwords, or a book-number token".  `"Book 12 Saga"` has both a
book-number token and a series stopword (but no year), and the title segment
`"Jim Butcher"` is a person name, yet `analyze_full_path` neither flags
`STRUCTURE_LIKELY_REVERSED` nor swaps the roles: the code's reversal test
(app.py 2034-2039) checks only `looks_like_title_with_year`. -/
theorem C8_reversed_structure_counterexample :
    looks_like_book_number "Book 12 Saga" = true ∧
    looks_like_series_name "Book 12 Saga" = true ∧
    looks_like_title_with_year "Book 12 Saga" = false ∧
    looks_like_person_name "Jim Butcher" = true ∧
    (analyze_full_path dbAuthorStub dbSeriesStub
        ["lib", "Book 12 Saga", "Jim Butcher", "f.mp3"] ["lib"]).map
      (fun r => (r.detectedAuthor, r.detectedTitle,
        r.issues.contains "STRUCTURE_LIKELY_REVERSED"))
      = some ("Book 12 Saga", "Jim Butcher", false) := by
  refine ⟨by decide, by decide, by decide, by decide, by decide⟩

/-- C8 (amended): whenever the detected author segment contains a year
(`looks_like_title_with_year`) and the detected title segment looks like a
person name, the final analysis flags `STRUCTURE_LIKELY_REVERSED` and swaps
the author and title in its output.  (Title-stopwords or a book-number token
alone do not trigger the swap, see the counterexample.) -/
theorem C8_reversed_structure_amended :
    ∀ (libRoot folders : List String) (fileStem : String) (st : ClassState)
      (a t : String),
      st.detectedAuthor = some a → st.detectedTitle = some t →
      a.isEmpty = false → t.isEmpty = false →
      looks_like_title_with_year a = true → looks_like_person_name t = true →
      ((finalizeAnalysis libRoot folders fileStem st).issues.contains
          "STRUCTURE_LIKELY_REVERSED" = true ∧
        (finalizeAnalysis libRoot folders fileStem st).detectedAuthor = t ∧
        (finalizeAnalysis libRoot folders fileStem st).detectedTitle = a) := by
  intro libRoot folders fileStem st a t hda hdt hae hte hy hp
  refine ⟨?_, ?_, ?_⟩ <;>
    simp [finalizeAnalysis, hda, hdt, hae, hte, hy, hp]

/-- Closed instantiation of `C8_reversed_structure_amended` at a concrete
classification state. -/
theorem C8_reversed_structure_amended_witness :
    ((finalizeAnalysis ["lib"] ["Metro 2033", "Dmitry Glukhovsky"] "f"
        ⟨some "Metro 2033", some "Dmitry Glukhovsky", none, some 1, [], []⟩).issues.contains
        "STRUCTURE_LIKELY_REVERSED" = true ∧
      (finalizeAnalysis ["lib"] ["Metro 2033", "Dmitry Glukhovsky"] "f"
        ⟨some "Metro 2033", some "Dmitry Glukhovsky", none, some 1, [], []⟩).detectedAuthor
        = "Dmitry Glukhovsky" ∧
      (finalizeAnalysis ["lib"] ["Metro 2033", "Dmitry Glukhovsky"] "f"
        ⟨some "Metro 2033", some "Dmitry Glukhovsky", none, some 1, [], []⟩).detectedTitle
        = "Metro 2033") :=
  C8_reversed_structure_amended ["lib"] ["Metro 2033", "Dmitry Glukhovsky"] "f"
    ⟨some "Metro 2033", some "Dmitry Glukhovsky", none, some 1, [], []⟩
    "Metro 2033" "Dmitry Glukhovsky" rfl rfl (by decide) (by decide) (by decide) (by decide)

/-! ## The library-scan slice for one title folder (app.py 2485-2572) and
the batch-processing safety pre-check (app.py 2782-2822) -/

def AUDIO_EXTENSIONS : List String :=
  [".m4b", ".mp3", ".m4a", ".flac", ".ogg", ".opus", ".wma", ".aac"]

/-- A directory entry of a title folder. -/
structure DirEntry where
  name : String
  isDir : Bool
deriving DecidableEq

def subdirNames (entries : List DirEntry) : List String :=
  (entries.filter (fun e => e.isDir)).map (fun e => e.name)

/-- The stems of the audio files among the entries
(`f.suffix.lower() in AUDIO_EXTENSIONS`). -/
def audioStems (entries : List DirEntry) : List String :=
  ((entries.filter (fun e => !e.isDir)).map (fun e => e.name)).filterMap (fun n =>
    let sp := fileSplit n.data
    if AUDIO_EXTENSIONS.contains (String.mk (lowerL sp.2)) then
      some (String.mk sp.1)
    else none)

/-- `^\d+\s*[-_]\s*(disc|disk|cd|part|chapter)` (ci). -/
def digitSepAlt2 (cs : List Char) : Bool :=
  let d := cs.takeWhile isDigitC
  if d.isEmpty then false
  else
    match wsStar1 (cs.drop d.length) with
    | c :: r2 =>
      if c = '-' || c = '_' then
        (firstHit ["disc".data, "disk".data, "cd".data, "part".data, "chapter".data]
          (fun l => dropLitCI l (wsStar1 r2))).isSome
      else false
    | [] => false

/-- `\s*(disc|disk|cd)\s*\d+$` matching the whole remainder. -/
def discDashTail (cs : List Char) : Bool :=
  (firstHit ["disc".data, "disk".data, "cd".data] fun l =>
    (dropLitCI l (wsStar1 cs)).bind fun r2 =>
      let r3 := wsStar1 r2
      let dg := r3.takeWhile isDigitC
      if !dg.isEmpty && (r3.drop dg.length).isEmpty then some () else none).isSome

/-- `.+\s*-\s*(disc|disk|cd)\s*\d+$` as a search: a dash preceded by at
least one character whose tail matches. -/
def discPat4Aux : Bool → List Char → Bool
  | _, [] => false
  | seen, c :: cs => (seen && decide (c = '-') && discDashTail cs) || discPat4Aux true cs

/-- `is_disc_chapter_folder(name)` (app.py 1718-1724, `DISC_CHAPTER_PATTERNS`
at 1543-1548; the name is lowercased and matched case-insensitively). -/
def is_disc_chapter_folder (name : String) : Bool :=
  let cs := lowerL name.data
  altWsDigits ["disc".data, "disk".data, "cd".data, "part".data, "chapter".data,
    "ch".data] cs ||
  digitSepAlt2 cs ||
  sidePat cs ||
  discPat4Aux false cs

/-- The system-folder blocklist at the title level (app.py 2499-2504). -/
def systemFolders : List String :=
  ["metadata", "tmp", "temp", "cache", "config", "data", "logs", "log",
   "backup", "backups", "old", "new", "test", "tests", "sample", "samples",
   ".thumbnails", "thumbnails", "covers", "images", "artwork", "art",
   "extras", "bonus", "misc", "other", "various", "unknown", "unsorted",
   "downloads", "incoming", "processing", "completed", "done", "failed",
   "streams", "chapters", "parts", ".streams", ".cache", ".metadata"]

/-- `^\d+\s*[-–—:.]?\s*\w`, with `\d+` backtracking.  The only characters
`\d+` can give back are digits; a digit matches neither `\s` nor the
separator class but does satisfy `\w`, so every non-greedy split of the
leading digit run (taking `k < d` digits) succeeds immediately with the
next digit as the `\w`: the pattern matches exactly when the greedy split
matches or at least two leading digits exist (e.g. the bare names "01",
"12", "12-").  `\s*` stays greedy without loss since whitespace satisfies
neither the separator class nor `\w`. -/
def numBookPat1 (cs : List Char) : Bool :=
  let d := cs.takeWhile isDigitC
  if d.isEmpty then false
  else
    let r := wsStar1 (cs.drop d.length)
    let r2 := match r with
      | c :: rest =>
        if c = '-' || c = '–' || c = '—' || c = ':' || c = '.' then wsStar1 rest else r
      | [] => r
    (match r2 with
     | e :: _ => isWordC e
     | [] => false) ||
    decide (2 ≤ d.length)

/-- `^#?\d+\s*[-–—:]`. -/
def hashNumSep2 (cs : List Char) : Bool :=
  let cs1 := match cs with | '#' :: r => r | _ => cs
  let d := cs1.takeWhile isDigitC
  if d.isEmpty then false
  else
    match wsStar1 (cs1.drop d.length) with
    | c :: _ => c = '-' || c = '–' || c = '—' || c = ':'
    | [] => false

/-- Unanchored search, leftmost position first. -/
def searchAny (p : List Char → Bool) : List Char → Bool
  | [] => p []
  | c :: cs => p (c :: cs) || searchAny p cs

/-- `LIT\s*\d+` at the current position (ci). -/
def litWsDigitsAt (lit : List Char) (cs : List Char) : Bool :=
  match dropLitCI lit cs with
  | some r => !((wsStar1 r).takeWhile isDigitC).isEmpty
  | none => false

/-- `vol(ume)?\s*\d+` search (ci, with backtracking over the optional
group). -/
def volPat (cs : List Char) : Bool :=
  searchAny (fun r =>
    match dropLitCI "vol".data r with
    | some r2 =>
      (match dropLitCI "ume".data r2 with
       | some r3 => !((wsStar1 r3).takeWhile isDigitC).isEmpty
       | none => false) || !((wsStar1 r2).takeWhile isDigitC).isEmpty
    | none => false) cs

/-- One name matching any of `book_folder_patterns` (app.py 2514-2520 and
2789-2792): does this subfolder look like a numbered book? -/
def matchesBookFolder (name : String) : Bool :=
  let cs := name.data
  numBookPat1 cs || hashNumSep2 cs ||
  searchAny (litWsDigitsAt "book".data) cs ||
  volPat cs ||
  searchAny (litWsDigitsAt "part".data) cs

/-- Leftmost-position capture search. -/
def searchCap (p : List Char → Option (List Char)) : List Char → Option (List Char)
  | [] => p []
  | c :: cs =>
    match p (c :: cs) with
    | some g => some g
    | none => searchCap p cs

/-- `book\s*(\d+)` at a position (ci). -/
def capBookNum (cs : List Char) : Option (List Char) :=
  (dropLitCI "book".data cs).bind fun r => (digitsSplit (wsStar1 r)).map (fun x => x.1)

/-- `#(\d+)` at a position. -/
def capHashNum (cs : List Char) : Option (List Char) :=
  match cs with
  | '#' :: r => (digitsSplit r).map (fun x => x.1)
  | _ => none

/-- `^(\d+)\s*[-–—:.]` (anchored). -/
def capNumSepAnchor (cs : List Char) : Option (List Char) :=
  (digitsSplit cs).bind fun dr =>
    match wsStar1 dr.2 with
    | c :: _ =>
      if c = '-' || c = '–' || c = '—' || c = ':' || c = '.' then some dr.1 else none
    | [] => none

def isCl1 (c : Char) : Bool := c = '-' || c = '_' || isWsC c

def isCl2 (c : Char) : Bool := isCl1 c || c = '.'

/-- `[-_\s](\d+)[-_\s.]` at a position. -/
def capDashNum (cs : List Char) : Option (List Char) :=
  match cs with
  | c :: rest =>
    if isCl1 c then
      (digitsSplit rest).bind fun dr =>
        match dr.2 with
        | e :: _ => if isCl2 e then some dr.1 else none
        | [] => none
    else none
  | [] => none

/-- `volume\s*(\d+)` at a position (ci). -/
def capVolumeNum (cs : List Char) : Option (List Char) :=
  (dropLitCI "volume".data cs).bind fun r => (digitsSplit (wsStar1 r)).map (fun x => x.1)

/-- `vol\.?\s*(\d+)` at a position (ci). -/
def capVolNum (cs : List Char) : Option (List Char) :=
  (dropLitCI "vol".data cs).bind fun r =>
    match r with
    | '.' :: r2 =>
      match (digitsSplit (wsStar1 r2)).map (fun x => x.1) with
      | some d => some d
      | none => (digitsSplit (wsStar1 r)).map (fun x => x.1)
    | _ => (digitsSplit (wsStar1 r)).map (fun x => x.1)

/-- For one audio file stem, the first `book_file_patterns` entry that
matches anywhere yields its captured number string (app.py 2553-2559 and
2810-2816). -/
def extractBookFileNum (stem : String) : Option (List Char) :=
  let cs := stem.data
  match searchCap capBookNum cs with
  | some d => some d
  | none =>
  match searchCap capHashNum cs with
  | some d => some d
  | none =>
  match capNumSepAnchor cs with
  | some d => some d
  | none =>
  match searchCap capDashNum cs with
  | some d => some d
  | none =>
  match searchCap capVolumeNum cs with
  | some d => some d
  | none => searchCap capVolNum cs

/-- The set of distinct book-number strings found across the audio files. -/
def bookNumbersFound (stems : List String) : List (List Char) :=
  (stems.filterMap extractBookFileNum).dedup

/-- ≥ 2 audio files encoding ≥ 2 distinct book numbers. -/
def multiBookAudio (entries : List DirEntry) : Prop :=
  2 ≤ (audioStems entries).length ∧ 2 ≤ (bookNumbersFound (audioStems entries)).length

instance (entries : List DirEntry) : Decidable (multiBookAudio entries) := by
  unfold multiBookAudio; infer_instance

/-- ≥ 2 subfolders of which ≥ 2 look like numbered books. -/
def seriesSubdirs (entries : List DirEntry) : Prop :=
  2 ≤ (subdirNames entries).length ∧
    2 ≤ ((subdirNames entries).filter matchesBookFolder).length

instance (entries : List DirEntry) : Decidable (seriesSubdirs entries) := by
  unfold seriesSubdirs; infer_instance

/-- How the per-title-folder scan loop (app.py 2485-2572) disposes of one
folder before any queueing can happen; `proceeded` is the fall-through into
issue analysis and possible queue insertion (2574-2662). -/
inductive ScanStep where
  | skippedDisc
  | skippedSystem
  | markedSeriesFolder
  | markedMultiBookFiles
  | proceeded
deriving DecidableEq

def scanTitleStep (title : String) (entries : List DirEntry) : ScanStep :=
  if is_disc_chapter_folder title then .skippedDisc
  else if systemFolders.contains (String.mk (lowerL title.data)) ||
      (match title.data with | '.' :: _ => true | _ => false) then .skippedSystem
  else if seriesSubdirs entries then .markedSeriesFolder
  else if multiBookAudio entries then .markedMultiBookFiles
  else .proceeded

/-- The batch-processing safety pre-check on one queue item's folder
(app.py 2782-2822): blocked items get a terminal status, their queue row is
deleted and rename logic is never reached. -/
inductive PreCheck where
  | blockedSeriesFolder
  | blockedMultiBookFiles
  | proceed
deriving DecidableEq

def processPreCheck (pathExists pathIsDir : Bool) (entries : List DirEntry) : PreCheck :=
  if pathExists && pathIsDir then
    if seriesSubdirs entries then .blockedSeriesFolder
    else if multiBookAudio entries then .blockedMultiBookFiles
    else .proceed
  else .proceed

/-! ## Claim C2 -/

/-- A folder that is simultaneously a series container (two numbered
subfolders) and a multi-book file set. -/
def comboEntries : List DirEntry :=
  [⟨"01 - A", true⟩, ⟨"02 - B", true⟩,
   ⟨"Necroscope Book 1.m4b", false⟩, ⟨"Necroscope Book 2.m4b", false⟩]

/-- C2 (counterexample): a folder whose audio files encode two distinct book
numbers but which also contains two numbered book subfolders is classified
`series_folder`, not `multi_book_files` — the subfolder check at app.py
2509-2537 runs first.  (It still never enters the rename queue.) -/
theorem C2_multi_book_counterexample :
    multiBookAudio comboEntries ∧
    scanTitleStep "Necroscope" comboEntries = .markedSeriesFolder ∧
    scanTitleStep "Necroscope" comboEntries ≠ .markedMultiBookFiles := by
  refine ⟨by decide, by decide, by decide⟩

/-- C2 (amended): a folder whose audio files encode ≥ 2 distinct book
numbers is never queued by the scan (it never reaches the queue-insertion
fall-through), and is classified `multi_book_files` provided it is not
skipped as a disc/system folder and the series-subfolder check does not fire
first; the spec's example folder is so classified.  For queued folders that
still exist, the batch pre-check sets the terminal status `series_folder`
(subfolder check first) or `multi_book_files`, deleting the queue item and
never reaching rename logic. -/
theorem C2_multi_book_detection :
    (∀ (title : String) (entries : List DirEntry),
      multiBookAudio entries → scanTitleStep title entries ≠ .proceeded) ∧
    (∀ (title : String) (entries : List DirEntry),
      multiBookAudio entries →
      is_disc_chapter_folder title = false →
      (systemFolders.contains (String.mk (lowerL title.data)) ||
        (match title.data with | '.' :: _ => true | _ => false)) = false →
      ¬seriesSubdirs entries →
      scanTitleStep title entries = .markedMultiBookFiles) ∧
    scanTitleStep "Necroscope"
      [⟨"Necroscope Book 1.m4b", false⟩, ⟨"Necroscope Book 2.m4b", false⟩]
      = .markedMultiBookFiles ∧
    (∀ entries : List DirEntry,
      multiBookAudio entries → ¬seriesSubdirs entries →
      processPreCheck true true entries = .blockedMultiBookFiles) ∧
    (∀ entries : List DirEntry,
      seriesSubdirs entries → processPreCheck true true entries = .blockedSeriesFolder) ∧
    (∀ entries : List DirEntry,
      multiBookAudio entries ∨ seriesSubdirs entries →
      processPreCheck true true entries ≠ .proceed) := by
  refine ⟨?_, ?_, by decide, ?_, ?_, ?_⟩
  · intro title entries hm
    unfold scanTitleStep
    split_ifs <;> simp_all
  · intro title entries hm h1 h2 h3
    unfold scanTitleStep
    rw [if_neg (by rw [h1]; simp), if_neg (by rw [h2]; simp), if_neg h3, if_pos hm]
  · intro entries hm hs
    unfold processPreCheck
    rw [if_pos (show (true && true) = true from rfl), if_neg hs, if_pos hm]
  · intro entries hs
    unfold processPreCheck
    rw [if_pos (show (true && true) = true from rfl), if_pos hs]
  · intro entries hor
    unfold processPreCheck
    rw [if_pos (show (true && true) = true from rfl)]
    rcases hor with hm | hs
    · by_cases hs : seriesSubdirs entries
      · rw [if_pos hs]; simp
      · rw [if_neg hs, if_pos hm]; simp
    · rw [if_pos hs]; simp

/-- Closed instantiation of `C2_multi_book_detection` at the spec's example
folder. -/
theorem C2_multi_book_detection_witness :
    scanTitleStep "Necroscope"
        [⟨"Necroscope Book 1.m4b", false⟩, ⟨"Necroscope Book 2.m4b", false⟩]
      ≠ .proceeded ∧
    processPreCheck true true
        [⟨"Necroscope Book 1.m4b", false⟩, ⟨"Necroscope Book 2.m4b", false⟩]
      = .blockedMultiBookFiles :=
  ⟨C2_multi_book_detection.1 "Necroscope"
      [⟨"Necroscope Book 1.m4b", false⟩, ⟨"Necroscope Book 2.m4b", false⟩] (by decide),
   C2_multi_book_detection.2.2.2.1
      [⟨"Necroscope Book 1.m4b", false⟩, ⟨"Necroscope Book 2.m4b", false⟩]
      (by decide) (by decide)⟩

/-! ## The queue tables and their insertion operations (app.py 310-335,
2429-2448, 2656-2661)

The `queue` table's schema (app.py 328-335) has only the autoincrement
primary key `id`; `book_id` carries no UNIQUE constraint.  The loose-file
scan inserts with `INSERT OR REPLACE (book_id, reason, added_at, priority)`:
since no supplied column can violate a uniqueness constraint, `OR REPLACE`
never fires and the statement is a plain insert of a fresh row. -/

structure BookRow where
  id : Nat
  path : String
  author : String
  title : String
  status : String
deriving DecidableEq

structure QueueRow where
  id : Nat
  bookId : Nat
  reason : String
  priority : Nat
deriving DecidableEq

structure LibDB where
  books : List BookRow
  queue : List QueueRow
  nextBookId : Nat
  nextQueueId : Nat
deriving DecidableEq

/-- Queue rows outstanding for one book. -/
def queueCount (db : LibDB) (bookId : Nat) : Nat :=
  (db.queue.filter (fun q => q.bookId = bookId)).length

/-- The loose-file queueing step of the scan (app.py 2429-2448): find or
create the book row by path, then `INSERT OR REPLACE` into the queue (a
plain insert, see above). -/
def queueLooseFile (db : LibDB) (path stem cleaned : String) : LibDB :=
  let found := db.books.find? (fun b => b.path = path)
  let bookId := match found with
    | some b => b.id
    | none => db.nextBookId
  let db := match found with
    | some _ => db
    | none =>
      { db with
        books := db.books ++
          [(⟨db.nextBookId, path, "Unknown", cleaned, "loose_file"⟩ : BookRow)]
        nextBookId := db.nextBookId + 1 }
  { db with
    queue := db.queue ++
      [(⟨db.nextQueueId, bookId, "loose_file_needs_folder:" ++ stem, 1⟩ : QueueRow)]
    nextQueueId := db.nextQueueId + 1 }

/-- The folder queueing step of the scan (app.py 2656-2661): insert only if
no queue row references this book. -/
def queueFolderWithIssues (db : LibDB) (bookId : Nat) (reason : String)
    (priority : Nat) : LibDB :=
  if db.queue.any (fun q => q.bookId = bookId) then db
  else
    { db with
      queue := db.queue ++ [⟨db.nextQueueId, bookId, reason, priority⟩]
      nextQueueId := db.nextQueueId + 1 }

def emptyLibDB : LibDB := ⟨[], [], 1, 1⟩

/-! ## Claim C9 -/

/-- C9 (failing input): two consecutive scans of a library containing the
same loose audio file.  The second `INSERT OR REPLACE` cannot replace
anything (no uniqueness constraint on `book_id`), so one book row ends up
with two outstanding queue rows, violating the stated invariant.  The
folder-insertion site, by contrast, preserves the at-most-one property. -/
theorem C9_queue_uniqueness_violated :
    ((queueLooseFile (queueLooseFile emptyLibDB "/lib/b.mp3" "b" "b")
        "/lib/b.mp3" "b" "b").books.map (fun b => b.id) = [1] ∧
      (queueLooseFile (queueLooseFile emptyLibDB "/lib/b.mp3" "b" "b")
        "/lib/b.mp3" "b" "b").queue.map (fun q => q.bookId) = [1, 1] ∧
      queueCount (queueLooseFile (queueLooseFile emptyLibDB "/lib/b.mp3" "b" "b")
        "/lib/b.mp3" "b" "b") 1 = 2) ∧
    (∀ (db : LibDB) (bookId : Nat) (reason : String) (priority : Nat),
      queueCount db bookId ≤ 1 →
      queueCount (queueFolderWithIssues db bookId reason priority) bookId ≤ 1) := by
  refine ⟨by decide, ?_⟩
  intro db bookId reason priority h
  unfold queueFolderWithIssues
  by_cases hq : db.queue.any (fun q => q.bookId = bookId) = true
  · rw [if_pos hq]; exact h
  · rw [if_neg hq]
    have hz : queueCount db bookId = 0 := by
      unfold queueCount
      rw [List.length_eq_zero]
      rw [List.filter_eq_nil_iff]
      intro q hqm
      have := List.any_eq_true.not.mp hq
      push_neg at this
      simpa using this q hqm
    unfold queueCount at *
    simp only [List.filter_append, List.length_append]
    rw [show (db.queue.filter (fun q => decide (q.bookId = bookId))).length = 0 from hz]
    simp

/-- Closed instantiation of the folder-insertion part of
`C9_queue_uniqueness_violated`. -/
theorem C9_queue_uniqueness_violated_witness :
    queueCount (queueFolderWithIssues emptyLibDB 1 "junk" 3) 1 ≤ 1 :=
  C9_queue_uniqueness_violated.2 emptyLibDB 1 "junk" 3 (by decide)

/-! ## `verify_drastic_change` (app.py 1212-1269) and the drastic-change
handling in `process_queue` (app.py 2917-2967)

The external pieces are abstracted at their call boundary: `hasKey` is
whether an API key for the selected provider exists (app.py 1240-1246);
`callResult` is the outcome of the provider call (`none` = the call raised,
caught at 1267-1269; `some none` = falsy/unparseable response, 1248-1249;
`some (some r)` = the parsed dict); `numCandidates` the number of gathered
API candidates. -/

structure VerifyResponse where
  decision : Option String
  confidence : Option String
  recommended_author : Option String
  recommended_title : Option String
  reasoning : Option String
deriving DecidableEq

structure VerifyResult where
  verified : Bool
  decision : String
  author : String
  title : String
  reasoning : String
  confidence : String
  candidates_found : Nat
deriving DecidableEq

def verify_drastic_change (hasKey : Bool)
    (callResult : Option (Option VerifyResponse))
    (originalAuthor originalTitle : String) (numCandidates : Nat) :
    Option VerifyResult :=
  if !hasKey then none
  else
    match callResult with
    | none => none
    | some none => none
    | some (some v) =>
      let decision := v.decision.getD "UNCERTAIN"
      let confidence := v.confidence.getD "LOW"
      some ⟨decide (decision = "CORRECT") &&
              (decide (confidence = "HIGH") || decide (confidence = "MEDIUM")),
            decision,
            v.recommended_author.getD originalAuthor,
            v.recommended_title.getD originalTitle,
            v.reasoning.getD "",
            confidence,
            numCandidates⟩

/-- How the drastic-change protection branch disposes of one item (app.py
2934-2967): `proceedWith` carries the (possibly corrected) author/title and
the re-run drastic check; `blockedPendingFix` records the status written to
the book row and that the queue row is deleted. -/
inductive DrasticOutcome where
  | proceedWith (author title : String) (stillDrastic : Bool)
  | blockedPendingFix (statusSet : String) (queueDeleted : Bool)
deriving DecidableEq

def handleDrasticVerification (currentAuthor : String)
    (verification : Option VerifyResult) : DrasticOutcome :=
  match verification with
  | some v =>
    if v.verified then
      .proceedWith v.author v.title (is_drastic_author_change currentAuthor v.author)
    else if v.decision = "WRONG" then
      .proceedWith v.author v.title (is_drastic_author_change currentAuthor v.author)
    else
      .blockedPendingFix "pending_fix" true
  | none => .blockedPendingFix "pending_fix" true

/-! ## Claim C3 -/

/-- C3: the verification outcome is `verified` exactly when the LLM decision
is CORRECT with HIGH or MEDIUM confidence; a missing API key, an
unparseable/falsy response, or an exception yields no verification; and an
UNCERTAIN (or any non-WRONG unverified) decision, as well as a failed
verification call, always ends the item in `pending_fix` with the queue row
cleared — the proposed change is never applied. -/
theorem C3_drastic_verification_protocol :
    (∀ (hasKey : Bool) (callResult : Option (Option VerifyResponse))
        (oa ot : String) (nc : Nat) (r : VerifyResult),
      verify_drastic_change hasKey callResult oa ot nc = some r →
      (r.verified = true ↔
        r.decision = "CORRECT" ∧ (r.confidence = "HIGH" ∨ r.confidence = "MEDIUM"))) ∧
    (∀ (callResult : Option (Option VerifyResponse)) (oa ot : String) (nc : Nat),
      verify_drastic_change false callResult oa ot nc = none) ∧
    (∀ (hasKey : Bool) (oa ot : String) (nc : Nat),
      verify_drastic_change hasKey none oa ot nc = none ∧
      verify_drastic_change hasKey (some none) oa ot nc = none) ∧
    (∀ currentAuthor : String,
      handleDrasticVerification currentAuthor none
        = .blockedPendingFix "pending_fix" true) ∧
    (∀ (currentAuthor : String) (v : VerifyResult),
      v.verified = false → v.decision ≠ "WRONG" →
      handleDrasticVerification currentAuthor (some v)
        = .blockedPendingFix "pending_fix" true) ∧
    (∀ (resp : VerifyResponse) (oa ot currentAuthor : String) (nc : Nat)
        (r : VerifyResult),
      resp.decision.getD "UNCERTAIN" = "UNCERTAIN" →
      verify_drastic_change true (some (some resp)) oa ot nc = some r →
      handleDrasticVerification currentAuthor (some r)
        = .blockedPendingFix "pending_fix" true) := by
  refine ⟨?_, ?_, ?_, ?_, ?_, ?_⟩
  · intro hasKey callResult oa ot nc r h
    unfold verify_drastic_change at h
    cases hasKey with
    | false => simp at h
    | true =>
      simp only [Bool.not_true, Bool.false_eq_true, if_false] at h
      match callResult with
      | none => simp at h
      | some none => simp at h
      | some (some v) =>
        simp only [Option.some.injEq] at h
        rw [← h]
        constructor
        · intro hv
          have := Bool.and_eq_true_iff.mp hv
          refine ⟨of_decide_eq_true this.1, ?_⟩
          rcases Bool.or_eq_true_iff.mp this.2 with h2 | h2
          · exact Or.inl (of_decide_eq_true h2)
          · exact Or.inr (of_decide_eq_true h2)
        · rintro ⟨h1, h2⟩
          apply Bool.and_eq_true_iff.mpr
          refine ⟨decide_eq_true h1, ?_⟩
          apply Bool.or_eq_true_iff.mpr
          rcases h2 with h2 | h2
          · exact Or.inl (decide_eq_true h2)
          · exact Or.inr (decide_eq_true h2)
  · intro callResult oa ot nc
    unfold verify_drastic_change
    simp
  · intro hasKey oa ot nc
    unfold verify_drastic_change
    cases hasKey <;> simp
  · intro currentAuthor
    rfl
  · intro currentAuthor v hv hd
    simp only [handleDrasticVerification]
    rw [if_neg (by rw [hv]; simp), if_neg hd]
  · intro resp oa ot currentAuthor nc r hu hv
    unfold verify_drastic_change at hv
    simp only [Bool.not_true, Bool.false_eq_true, if_false, Option.some.injEq] at hv
    subst hv
    simp only [handleDrasticVerification, hu]
    rw [if_neg (by simp), if_neg (by simp)]

/-- Closed instantiation of `C3_drastic_verification_protocol` on an
UNCERTAIN response. -/
theorem C3_drastic_verification_protocol_witness :
    handleDrasticVerification "Steven Boyett"
        (some ⟨false, "UNCERTAIN", "John Dickson Carr", "The Hollow Man", "", "LOW", 4⟩)
      = .blockedPendingFix "pending_fix" true :=
  C3_drastic_verification_protocol.2.2.2.2.1 "Steven Boyett"
    ⟨false, "UNCERTAIN", "John Dickson Carr", "The Hollow Man", "", "LOW", 4⟩
    rfl (by decide)

/-! ## Per-item path handling in the fix loop of `process_queue`
(app.py 2895-2916)

How one queue item's path-building step ends: `crashedBatch` models an
exception escaping the per-item loop (no enclosing try/except before the
rename block at app.py 2989), which aborts the whole `process_queue` call;
`markedError` is the safety block at 2908-2915 (queue row deleted, book
status set to error, loop continues); `continueWith` carries the built
path into the rest of the iteration. -/

inductive ItemStep where
  | crashedBatch
  | markedError (message : String)
  | continueWith (newPath : List String)
deriving DecidableEq

/-- `str.startswith(pat)` on the underlying character lists. -/
def startsWithL : List Char → List Char → Bool
  | _, [] => true
  | [], _ :: _ => false
  | a :: as, b :: bs => a = b && startsWithL as bs

/-- App.py 2895-2916.  The loose-file filename append
`new_path = new_path / old_path.name` (lines 2901-2904) executes BEFORE the
`if new_path is None` safety check (line 2908); when `build_new_path`
returned None, `None / name` raises TypeError, uncaught in the loop. -/
def processItemPath (libPath : List String) (author title : String)
    (series seriesNum narrator : Option String) (year : Option Nat)
    (edition variant : Option String) (cfg : Config)
    (reason : String) (pathIsFile : Bool) (fileName : String) : ItemStep :=
  let isLooseFile := startsWithL reason.data "loose_file_needs_folder".data
  match build_new_path libPath author title series seriesNum narrator year
      edition variant cfg with
  | .crashed => .crashedBatch
  | .rejected =>
    if isLooseFile && pathIsFile then .crashedBatch
    else .markedError "Path validation failed - unsafe author/title"
  | .built p =>
    if isLooseFile && pathIsFile then .continueWith (p ++ [fileName])
    else .continueWith p

/-- Running the fix loop over a batch: `none` means an item's exception
aborted the batch; `some n` counts the items that were handled. -/
def runBatchSteps : List ItemStep → Option Nat
  | [] => some 0
  | .crashedBatch :: _ => none
  | .markedError _ :: rest => (runBatchSteps rest).map (fun n => n + 1)
  | .continueWith _ :: rest => (runBatchSteps rest).map (fun n => n + 1)

/-! ## Claim C5 -/

set_option maxRecDepth 8000 in
/-- C5 (failing input): a loose-file queue item whose path is a file and
whose proposed author fails sanitization (e.g. the one-character author
"X", so `build_new_path` returns None).  The filename append at app.py
2904 runs before the None check at 2908, raising an uncaught TypeError
that aborts the whole batch; only non-loose items with a None path are
marked as errors and skipped as the claim describes. -/
theorem C5_item_failure_not_contained :
    (∀ (libPath : List String) (author title : String)
        (series seriesNum narrator : Option String) (year : Option Nat)
        (edition variant : Option String) (cfg : Config)
        (reason fileName : String),
      build_new_path libPath author title series seriesNum narrator year
          edition variant cfg = .rejected →
      startsWithL reason.data "loose_file_needs_folder".data = true →
      processItemPath libPath author title series seriesNum narrator year
          edition variant cfg reason true fileName = .crashedBatch) ∧
    processItemPath ["lib"] "X" "Great Title" none none none none none none
        cfgDefault "loose_file_needs_folder:b" true "b.mp3" = .crashedBatch ∧
    processItemPath ["lib"] "X" "Great Title" none none none none none none
        cfgDefault "bad_author_folder" false "b.mp3"
      = .markedError "Path validation failed - unsafe author/title" ∧
    (∀ rest : List ItemStep, runBatchSteps (.crashedBatch :: rest) = none) := by
  refine ⟨?_, by decide, by decide, fun rest => rfl⟩
  intro libPath author title series seriesNum narrator year edition variant
    cfg reason fileName hb hl
  simp [processItemPath, hb, hl]

set_option maxRecDepth 8000 in
/-- Closed instantiation of `C5_item_failure_not_contained` at the
one-character-author loose file. -/
theorem C5_item_failure_not_contained_witness :
    processItemPath [] "X" "The Hollow Man" none none none none none none
        cfgDefault "loose_file_needs_folder:hollow" true "hollow.m4b"
      = .crashedBatch :=
  C5_item_failure_not_contained.1 [] "X" "The Hollow Man" none none none none
    none none cfgDefault "loose_file_needs_folder:hollow" "hollow.m4b"
    (by decide) (by decide)

end LibraryManager
